import Mathlib

/-!
# SDL multimedia demo (`src/main.cpp`): effect-trace embedding

The program is a single class `SDLApp` whose behaviour consists of calls into
SDL2, SDL_image, SDL_mixer and SDL_ttf.  The embedding keeps

* the fields of `SDLApp` (`SDLApp`),
* the state of the music player of SDL_mixer (`MusicState`),
* the ordered list of library calls made so far, with their arguments and
  return values (`Call`, `Sys.trace`).

What the libraries answer is an input of the model: `Env` holds the return
values of the eleven acquisitions made by `init`/`loadMedia`, and a stream of
`FrameInput` holds, per loop iteration, the batch of pending events and the
results of rasterising the text.
-/

namespace SdlTesting

/-! ## Values from the SDL headers -/

/-- A C pointer; `0` is the null pointer. -/
abbrev Ptr := Nat

/-- The null pointer. -/
def nullptr : Ptr := 0

/-- Line 8: `#define SCREEN_WIDTH 800`. -/
def SCREEN_WIDTH : Nat := 800

/-- Line 9: `#define SCREEN_HEIGHT 600`. -/
def SCREEN_HEIGHT : Nat := 600

/-- Value of `SDL_INIT_VIDEO` in `SDL.h`. -/
def SDL_INIT_VIDEO : Nat := 0x20

/-- Value of `SDL_INIT_AUDIO` in `SDL.h`. -/
def SDL_INIT_AUDIO : Nat := 0x10

/-- Value of `IMG_INIT_PNG` in `SDL_image.h`. -/
def IMG_INIT_PNG : Nat := 0x2

/-- Value of `MIX_DEFAULT_FORMAT` (`AUDIO_S16LSB`) in `SDL_mixer.h`. -/
def MIX_DEFAULT_FORMAT : Nat := 0x8010

/-- Value of `SDL_WINDOWPOS_UNDEFINED` in `SDL_video.h`. -/
def SDL_WINDOWPOS_UNDEFINED : Nat := 0x1FFF0000

/-- Value of `SDL_WINDOW_SHOWN` in `SDL_video.h`. -/
def SDL_WINDOW_SHOWN : Nat := 0x4

/-- Value of `SDL_RENDERER_ACCELERATED` in `SDL_render.h`. -/
def SDL_RENDERER_ACCELERATED : Nat := 0x2

/-- Value of the event type `SDL_QUIT` in `SDL_events.h`. -/
def SDL_QUIT : Nat := 0x100

/-- Value of the event type `SDL_KEYDOWN` in `SDL_events.h`. -/
def SDL_KEYDOWN : Nat := 0x300

/-- Key code `SDLK_p` (the character `p`). -/
def SDLK_p : Int := 112

/-- Key code `SDLK_s` (the character `s`). -/
def SDLK_s : Int := 115

/-- The part of `SDL_Event` the program reads: `e.type` and `e.key.keysym.sym`
(the latter is read only when the type is `SDL_KEYDOWN`). -/
structure Event where
  type : Nat
  sym : Int
deriving DecidableEq, Repr

/-- The struct `SDL_Rect`. -/
structure SDL_Rect where
  x : Int
  y : Int
  w : Int
  h : Int
deriving DecidableEq, Repr

/-- The struct `SDL_Color`. -/
structure SDL_Color where
  r : Nat
  g : Nat
  b : Nat
  a : Nat
deriving DecidableEq, Repr

/-- Which library's diagnostic string is passed to a `printf`. -/
inductive ErrorSource where
  | SDL_GetError
  | IMG_GetError
  | Mix_GetError
  | TTF_GetError
deriving DecidableEq, Repr

/-- One library call made by the program, with its arguments and, where the
program reads it, the value the library returned (`ret`). -/
inductive Call where
  | SDL_Init (flags : Nat) (ret : Int)
  | IMG_Init (flags : Nat) (ret : Nat)
  | Mix_OpenAudio (frequency format channels chunksize : Nat) (ret : Int)
  | TTF_Init (ret : Int)
  | SDL_CreateWindow (title : String) (x y w h flags : Nat) (ret : Ptr)
  | SDL_CreateRenderer (window : Ptr) (index : Int) (flags : Nat) (ret : Ptr)
  | TTF_OpenFont (file : String) (ptsize : Nat) (ret : Ptr)
  | Mix_LoadMUS (file : String) (ret : Ptr)
  | Mix_LoadWAV (file : String) (ret : Ptr)
  | IMG_Load (file : String) (ret : Ptr)
  | SDL_CreateTextureFromSurface (renderer surface : Ptr) (ret : Ptr)
  | SDL_FreeSurface (surface : Ptr)
  | printf (format : String) (arg : Option ErrorSource)
  | SDL_PollEvent (ret : Option Event)
  | Mix_PlayingMusic (ret : Int)
  | Mix_PausedMusic (ret : Int)
  | Mix_PlayMusic (music : Ptr) (loops : Int)
  | Mix_ResumeMusic
  | Mix_PauseMusic
  | Mix_PlayChannel (channel : Int) (chunk : Ptr) (loops : Int)
  | SDL_SetRenderDrawColor (renderer : Ptr) (r g b a : Nat)
  | SDL_RenderClear (renderer : Ptr)
  | SDL_RenderCopy (renderer texture : Ptr) (dstrect : SDL_Rect)
  | TTF_RenderText_Solid (font : Ptr) (text : String) (fg : SDL_Color) (ret : Ptr)
  | SDL_RenderPresent (renderer : Ptr)
  | SDL_Delay (ms : Nat)
  | SDL_DestroyTexture (texture : Ptr)
  | Mix_FreeChunk (chunk : Ptr)
  | Mix_FreeMusic (music : Ptr)
  | TTF_CloseFont (font : Ptr)
  | SDL_DestroyRenderer (renderer : Ptr)
  | SDL_DestroyWindow (window : Ptr)
  | TTF_Quit
  | Mix_Quit
  | IMG_Quit
  | SDL_Quit
deriving DecidableEq, Repr

/-- Modelled from the spec: the state of the music player of SDL_mixer, a library outside
the repository, which the specification describes by three states: nothing started yet,
playing, or paused. -/
inductive MusicState where
  | Stopped
  | Playing
  | Paused
deriving DecidableEq, Repr

/-- Modelled from the spec: `Mix_PlayingMusic()` of SDL_mixer is non-zero once music has
been started, paused or not. -/
def Mix_PlayingMusic : MusicState → Int
  | .Stopped => 0
  | .Playing => 1
  | .Paused => 1

/-- Modelled from the spec: `Mix_PausedMusic()` of SDL_mixer is non-zero only while the
music is paused. -/
def Mix_PausedMusic : MusicState → Int
  | .Stopped => 0
  | .Playing => 0
  | .Paused => 1

/-- Modelled from the spec: a successful `Mix_PlayMusic` of SDL_mixer leaves the music
playing. -/
def Mix_PlayMusic : MusicState → MusicState
  | _ => .Playing

/-- Modelled from the spec: `Mix_ResumeMusic` of SDL_mixer turns paused music into
playing music and changes nothing otherwise. -/
def Mix_ResumeMusic : MusicState → MusicState
  | .Paused => .Playing
  | m => m

/-- Modelled from the spec: `Mix_PauseMusic` of SDL_mixer turns playing music into
paused music and changes nothing otherwise. -/
def Mix_PauseMusic : MusicState → MusicState
  | .Playing => .Paused
  | m => m

/-! ## Program state -/

/-- Lines 12-19: the fields of `class SDLApp`. -/
structure SDLApp where
  window : Ptr
  renderer : Ptr
  font : Ptr
  music : Ptr
  soundEffect : Ptr
  image : Ptr
  running : Bool
deriving DecidableEq, Repr

/-- Lines 22-23: the constructor `SDLApp()`. -/
def SDLApp.new : SDLApp :=
  { window := nullptr, renderer := nullptr, font := nullptr,
    music := nullptr, soundEffect := nullptr, image := nullptr, running := true }

/-- The application object together with the state of the music player and the
calls made so far, oldest first. -/
structure Sys where
  app : SDLApp
  mixer : MusicState
  trace : List Call
deriving DecidableEq, Repr

/-- State at the start of `main`: a freshly constructed `SDLApp`, no music started,
no call made. -/
def Sys.initial : Sys :=
  { app := SDLApp.new, mixer := .Stopped, trace := [] }

/-- Record one library call at the end of the trace. -/
def Sys.call (s : Sys) (c : Call) : Sys :=
  { s with trace := s.trace ++ [c] }

/-- Return values of the eleven acquisitions of `init` and `loadMedia`, one per call
site, in the order of the source. -/
structure Env where
  SDL_Init : Int
  IMG_Init : Nat
  Mix_OpenAudio : Int
  TTF_Init : Int
  SDL_CreateWindow : Ptr
  SDL_CreateRenderer : Ptr
  TTF_OpenFont : Ptr
  Mix_LoadMUS : Ptr
  Mix_LoadWAV : Ptr
  IMG_Load : Ptr
  SDL_CreateTextureFromSurface : Ptr
deriving DecidableEq, Repr

/-- What the outside world supplies to one loop iteration: the events pending when
`handleEvents` starts draining, and the results of `TTF_RenderText_Solid` (surface
pointer, its `w` and `h`) and of `SDL_CreateTextureFromSurface` in `render`. -/
structure FrameInput where
  events : List Event
  textSurface : Ptr
  textW : Int
  textH : Int
  textTexture : Ptr
deriving DecidableEq, Repr

/-- Result of running code that may loop: it returned, it dereferenced a null pointer,
or the iteration budget of the model ran out while the loop was still going. -/
inductive Outcome (α : Type) where
  | done (a : α)
  | crashed
  | outOfFuel
deriving DecidableEq, Repr

/-! ## The methods of `SDLApp` -/

/-- Lines 70-107: `SDLApp::loadMedia`. -/
def loadMedia (env : Env) (s : Sys) : Bool × Sys :=
  -- Load font
  let font := env.TTF_OpenFont
  let s := { s.call (.TTF_OpenFont "resources/Times New Roman.ttf" 28 font) with
             app := { s.app with font := font } }
  if font = nullptr then
    (false, s.call (.printf "Failed to load font: %s\n" (some .TTF_GetError)))
  else
  -- Load music
  let music := env.Mix_LoadMUS
  let s := { s.call (.Mix_LoadMUS "resources/monkdev.mp3" music) with
             app := { s.app with music := music } }
  if music = nullptr then
    (false, s.call (.printf "Failed to load music: %s\n" (some .Mix_GetError)))
  else
  -- Load sound effect
  let soundEffect := env.Mix_LoadWAV
  let s := { s.call (.Mix_LoadWAV "resources/btn.wav" soundEffect) with
             app := { s.app with soundEffect := soundEffect } }
  if soundEffect = nullptr then
    (false, s.call (.printf "Failed to load sound effect: %s\n" (some .Mix_GetError)))
  else
  -- Load image
  let loadedSurface := env.IMG_Load
  let s := s.call (.IMG_Load "resources/rev.jpg" loadedSurface)
  if loadedSurface = nullptr then
    (false, s.call (.printf "Failed to load image: %s\n" (some .IMG_GetError)))
  else
  let image := env.SDL_CreateTextureFromSurface
  let s := { s.call (.SDL_CreateTextureFromSurface s.app.renderer loadedSurface image) with
             app := { s.app with image := image } }
  let s := s.call (.SDL_FreeSurface loadedSurface)
  if image = nullptr then
    (false, s.call (.printf "Failed to create texture: %s\n" (some .SDL_GetError)))
  else
  (true, s)

/-- Lines 25-68: `SDLApp::init`. -/
def init (env : Env) (s : Sys) : Bool × Sys :=
  -- Initialize SDL
  let s := s.call (.SDL_Init (SDL_INIT_VIDEO ||| SDL_INIT_AUDIO) env.SDL_Init)
  if env.SDL_Init < 0 then
    (false, s.call (.printf "SDL initialization failed: %s\n" (some .SDL_GetError)))
  else
  -- Initialize SDL_image
  let imgFlags := IMG_INIT_PNG
  let s := s.call (.IMG_Init imgFlags env.IMG_Init)
  if env.IMG_Init &&& imgFlags = 0 then
    (false, s.call (.printf "SDL_image initialization failed: %s\n" (some .IMG_GetError)))
  else
  -- Initialize SDL_mixer
  let s := s.call (.Mix_OpenAudio 44100 MIX_DEFAULT_FORMAT 2 2048 env.Mix_OpenAudio)
  if env.Mix_OpenAudio < 0 then
    (false, s.call (.printf "SDL_mixer initialization failed: %s\n" (some .Mix_GetError)))
  else
  -- Initialize SDL_ttf
  let s := s.call (.TTF_Init env.TTF_Init)
  if env.TTF_Init = -1 then
    (false, s.call (.printf "SDL_ttf initialization failed: %s\n" (some .TTF_GetError)))
  else
  -- Create window
  let window := env.SDL_CreateWindow
  let s := { s.call (.SDL_CreateWindow "SDL Multimedia Example"
                      SDL_WINDOWPOS_UNDEFINED SDL_WINDOWPOS_UNDEFINED
                      SCREEN_WIDTH SCREEN_HEIGHT SDL_WINDOW_SHOWN window) with
             app := { s.app with window := window } }
  if window = nullptr then
    (false, s.call (.printf "Window creation failed: %s\n" (some .SDL_GetError)))
  else
  -- Create renderer
  let renderer := env.SDL_CreateRenderer
  let s := { s.call (.SDL_CreateRenderer s.app.window (-1) SDL_RENDERER_ACCELERATED renderer) with
             app := { s.app with renderer := renderer } }
  if renderer = nullptr then
    (false, s.call (.printf "Renderer creation failed: %s\n" (some .SDL_GetError)))
  else
  loadMedia env s

/-- Lines 112-136: the body of the polling loop of `handleEvents` for one event. -/
def handleEvent (e : Event) (s : Sys) : Sys :=
  if e.type = SDL_QUIT then
    { s with app := { s.app with running := false } }
  else if e.type = SDL_KEYDOWN then
    if e.sym = SDLK_p then
      -- Play/Pause music
      let playing := Mix_PlayingMusic s.mixer
      let s := s.call (.Mix_PlayingMusic playing)
      if playing = 0 then
        { s.call (.Mix_PlayMusic s.app.music (-1)) with mixer := Mix_PlayMusic s.mixer }
      else
        let paused := Mix_PausedMusic s.mixer
        let s := s.call (.Mix_PausedMusic paused)
        if paused ≠ 0 then
          { s.call .Mix_ResumeMusic with mixer := Mix_ResumeMusic s.mixer }
        else
          { s.call .Mix_PauseMusic with mixer := Mix_PauseMusic s.mixer }
    else if e.sym = SDLK_s then
      -- Play sound effect
      s.call (.Mix_PlayChannel (-1) s.app.soundEffect 0)
    else s
  else s

/-- Lines 109-138: `SDLApp::handleEvents` on the list of pending events:
`SDL_PollEvent` hands them out one by one and returns 0 when none is left. -/
def handleEvents : List Event → Sys → Sys
  | [], s => s.call (.SDL_PollEvent none)
  | e :: pending, s => handleEvents pending (handleEvent e (s.call (.SDL_PollEvent (some e))))

/-- Lines 140-163: `SDLApp::render`.  `textSurface->w` dereferences the result of
`TTF_RenderText_Solid`; with a null result the frame does not complete (`none`). -/
def render (f : FrameInput) (s : Sys) : Option Sys :=
  -- Clear screen
  let s := s.call (.SDL_SetRenderDrawColor s.app.renderer 255 255 255 255)
  let s := s.call (.SDL_RenderClear s.app.renderer)
  -- Render image
  let imageRect : SDL_Rect := { x := 50, y := 50, w := 200, h := 200 }
  let s := s.call (.SDL_RenderCopy s.app.renderer s.app.image imageRect)
  -- Render text
  let textColor : SDL_Color := { r := 0, g := 0, b := 0, a := 0 }
  let text := "Press P to play/pause music, S for sound effect"
  let textSurface := f.textSurface
  let s := s.call (.TTF_RenderText_Solid s.app.font text textColor textSurface)
  let textTexture := f.textTexture
  let s := s.call (.SDL_CreateTextureFromSurface s.app.renderer textSurface textTexture)
  if textSurface = nullptr then none
  else
  let textRect : SDL_Rect :=
    { x := 50, y := (SCREEN_HEIGHT : Int) - 100, w := f.textW, h := f.textH }
  let s := s.call (.SDL_RenderCopy s.app.renderer textTexture textRect)
  let s := s.call (.SDL_FreeSurface textSurface)
  let s := s.call (.SDL_DestroyTexture textTexture)
  -- Update screen
  let s := s.call (.SDL_RenderPresent s.app.renderer)
  some s

/-- Lines 167-169: one iteration of the loop of `run`. -/
def iteration (f : FrameInput) (s : Sys) : Option Sys :=
  match render f (handleEvents f.events s) with
  | none => none
  | some s => some (s.call (.SDL_Delay 16))

/-- Lines 165-171: `SDLApp::run`.  `frames 0` feeds the next iteration; `fuel` bounds
the number of iterations the model follows. -/
def run : Nat → (Nat → FrameInput) → Sys → Outcome Sys
  | 0, _, s => if s.app.running then .outOfFuel else .done s
  | fuel + 1, frames, s =>
    if s.app.running then
      match iteration (frames 0) s with
      | none => .crashed
      | some s => run fuel (fun i => frames (i + 1)) s
    else .done s

/-- Lines 173-185: `SDLApp::cleanup`. -/
def cleanup (s : Sys) : Sys :=
  let s := s.call (.SDL_DestroyTexture s.app.image)
  let s := s.call (.Mix_FreeChunk s.app.soundEffect)
  let s := s.call (.Mix_FreeMusic s.app.music)
  let s := s.call (.TTF_CloseFont s.app.font)
  let s := s.call (.SDL_DestroyRenderer s.app.renderer)
  let s := s.call (.SDL_DestroyWindow s.app.window)
  let s := s.call .TTF_Quit
  let s := s.call .Mix_Quit
  let s := s.call .IMG_Quit
  let s := s.call .SDL_Quit
  s

/-- Lines 188-200: `main`, returning the exit code and the final state. -/
def main (fuel : Nat) (env : Env) (frames : Nat → FrameInput) : Outcome (Int × Sys) :=
  let app := Sys.initial
  match init env app with
  | (false, s) => .done (1, s.call (.printf "Failed to initialize!\n" none))
  | (true, s) =>
    match run fuel frames s with
    | .done s => .done (0, cleanup s)
    | .crashed => .crashed
    | .outOfFuel => .outOfFuel

/-! ## Vocabulary of the properties -/

/-- A key-down event of the P key (the music toggle). -/
def isPPress (e : Event) : Bool :=
  decide (e.type = SDL_KEYDOWN) && decide (e.sym = SDLK_p)

/-- Number of P presses in a sequence of events. -/
def pPresses (events : List Event) : Nat :=
  events.countP isPPress

/-- The music state the specification gives after `n` presses of P from `Stopped`:
`Stopped` for none, `Playing` for an odd number, `Paused` for an even positive one. -/
def musicAfter (n : Nat) : MusicState :=
  if n = 0 then .Stopped else if n % 2 = 1 then .Playing else .Paused

/-- The three-state toggle the specification describes for one press of P. -/
def toggle : MusicState → MusicState
  | .Stopped => .Playing
  | .Playing => .Paused
  | .Paused => .Playing

/-- The loop body of `run` repeated `n` times, whatever the running flag says. -/
def iterations : Nat → (Nat → FrameInput) → Sys → Option Sys
  | 0, _, s => some s
  | n + 1, frames, s =>
    match iteration (frames 0) s with
    | none => none
    | some s => iterations n (fun i => frames (i + 1)) s

/-- The call that ends a drain: `SDL_PollEvent` returning 0. -/
def Call.isDrainEnd : Call → Bool
  | .SDL_PollEvent none => true
  | _ => false

/-- The call that ends a rendered frame: `SDL_RenderPresent`. -/
def Call.isPresent : Call → Bool
  | .SDL_RenderPresent _ => true
  | _ => false

/-- The pacing call `SDL_Delay(16)`. -/
def Call.isDelay : Call → Bool
  | .SDL_Delay 16 => true
  | _ => false

/-- Calls that only `handleEvents` makes. -/
def Call.inHandleEvents : Call → Bool
  | .SDL_PollEvent _ => true
  | .Mix_PlayingMusic _ => true
  | .Mix_PausedMusic _ => true
  | .Mix_PlayMusic _ _ => true
  | .Mix_ResumeMusic => true
  | .Mix_PauseMusic => true
  | .Mix_PlayChannel _ _ _ => true
  | _ => false

/-- Calls that only `render` makes. -/
def Call.inRender : Call → Bool
  | .SDL_SetRenderDrawColor _ _ _ _ _ => true
  | .SDL_RenderClear _ => true
  | .SDL_RenderCopy _ _ _ => true
  | .TTF_RenderText_Solid _ _ _ _ => true
  | .SDL_RenderPresent _ => true
  | _ => false

/-- No event of the batch is a quit event. -/
def noQuit (events : List Event) : Prop :=
  ∀ e ∈ events, e.type ≠ SDL_QUIT

/-- Some event of the batch is a quit event. -/
def hasQuit (events : List Event) : Prop :=
  ∃ e ∈ events, e.type = SDL_QUIT

instance (events : List Event) : Decidable (noQuit events) := by
  unfold noQuit; infer_instance

instance (events : List Event) : Decidable (hasQuit events) := by
  unfold hasQuit; infer_instance

/-- The eleven acquisitions of `init` and `loadMedia`. -/
inductive Step where
  | SDL_Init
  | IMG_Init
  | Mix_OpenAudio
  | TTF_Init
  | window
  | renderer
  | font
  | music
  | sound
  | imageDecode
  | textureUpload
deriving DecidableEq, Repr

/-- The order in which the specification lists the acquisitions. -/
def stepOrder : List Step :=
  [.SDL_Init, .IMG_Init, .Mix_OpenAudio, .TTF_Init, .window, .renderer,
   .font, .music, .sound, .imageDecode, .textureUpload]

/-- Whether the library reports success for a step: a non-negative code for `SDL_Init`
and `Mix_OpenAudio`, the PNG flag among the flags `IMG_Init` returns, a code other than
`-1` for `TTF_Init`, a non-null pointer for the others. -/
def Step.ok (env : Env) : Step → Bool
  | .SDL_Init => decide (¬ env.SDL_Init < 0)
  | .IMG_Init => decide (env.IMG_Init &&& IMG_INIT_PNG ≠ 0)
  | .Mix_OpenAudio => decide (¬ env.Mix_OpenAudio < 0)
  | .TTF_Init => decide (env.TTF_Init ≠ -1)
  | .window => decide (env.SDL_CreateWindow ≠ nullptr)
  | .renderer => decide (env.SDL_CreateRenderer ≠ nullptr)
  | .font => decide (env.TTF_OpenFont ≠ nullptr)
  | .music => decide (env.Mix_LoadMUS ≠ nullptr)
  | .sound => decide (env.Mix_LoadWAV ≠ nullptr)
  | .imageDecode => decide (env.IMG_Load ≠ nullptr)
  | .textureUpload => decide (env.SDL_CreateTextureFromSurface ≠ nullptr)

/-- The step a call of the initialisation phase attempts, if any. -/
def Call.step : Call → Option Step
  | .SDL_Init _ _ => some .SDL_Init
  | .IMG_Init _ _ => some .IMG_Init
  | .Mix_OpenAudio _ _ _ _ _ => some .Mix_OpenAudio
  | .TTF_Init _ => some .TTF_Init
  | .SDL_CreateWindow _ _ _ _ _ _ _ => some .window
  | .SDL_CreateRenderer _ _ _ _ => some .renderer
  | .TTF_OpenFont _ _ _ => some .font
  | .Mix_LoadMUS _ _ => some .music
  | .Mix_LoadWAV _ _ => some .sound
  | .IMG_Load _ _ => some .imageDecode
  | .SDL_CreateTextureFromSurface _ _ _ => some .textureUpload
  | _ => none

/-- The steps attempted by a trace, in order. -/
def attempted (t : List Call) : List Step :=
  t.filterMap Call.step

/-- The steps of a list up to and including the first one that fails. -/
def upToFirstFailure (ok : Step → Bool) : List Step → List Step
  | [] => []
  | a :: rest => if ok a then a :: upToFirstFailure ok rest else [a]

/-- The four libraries brought up by `init`. -/
inductive Subsystem where
  | SDL
  | IMG
  | Mixer
  | TTF
deriving DecidableEq, Repr

/-- Something a library call hands to the program and a later call takes back. -/
inductive Resource where
  | subsystem (k : Subsystem)
  | window (p : Ptr)
  | renderer (p : Ptr)
  | font (p : Ptr)
  | music (p : Ptr)
  | chunk (p : Ptr)
  | surface (p : Ptr)
  | texture (p : Ptr)
deriving DecidableEq, Repr

/-- The resource a call acquires, when it succeeds. -/
def Call.acquires : Call → Option Resource
  | .SDL_Init _ ret => if ret < 0 then none else some (.subsystem .SDL)
  | .IMG_Init flags ret => if ret &&& flags = 0 then none else some (.subsystem .IMG)
  | .Mix_OpenAudio _ _ _ _ ret => if ret < 0 then none else some (.subsystem .Mixer)
  | .TTF_Init ret => if ret = -1 then none else some (.subsystem .TTF)
  | .SDL_CreateWindow _ _ _ _ _ _ ret => if ret = nullptr then none else some (.window ret)
  | .SDL_CreateRenderer _ _ _ ret => if ret = nullptr then none else some (.renderer ret)
  | .TTF_OpenFont _ _ ret => if ret = nullptr then none else some (.font ret)
  | .Mix_LoadMUS _ ret => if ret = nullptr then none else some (.music ret)
  | .Mix_LoadWAV _ ret => if ret = nullptr then none else some (.chunk ret)
  | .IMG_Load _ ret => if ret = nullptr then none else some (.surface ret)
  | .TTF_RenderText_Solid _ _ _ ret => if ret = nullptr then none else some (.surface ret)
  | .SDL_CreateTextureFromSurface _ _ ret =>
    if ret = nullptr then none else some (.texture ret)
  | _ => none

/-- The resource a call releases (freeing a null pointer releases nothing). -/
def Call.releases : Call → Option Resource
  | .SDL_FreeSurface p => if p = nullptr then none else some (.surface p)
  | .SDL_DestroyTexture p => if p = nullptr then none else some (.texture p)
  | .Mix_FreeChunk p => if p = nullptr then none else some (.chunk p)
  | .Mix_FreeMusic p => if p = nullptr then none else some (.music p)
  | .TTF_CloseFont p => if p = nullptr then none else some (.font p)
  | .SDL_DestroyRenderer p => if p = nullptr then none else some (.renderer p)
  | .SDL_DestroyWindow p => if p = nullptr then none else some (.window p)
  | .TTF_Quit => some (.subsystem .TTF)
  | .Mix_Quit => some (.subsystem .Mixer)
  | .IMG_Quit => some (.subsystem .IMG)
  | .SDL_Quit => some (.subsystem .SDL)
  | _ => none

/-- Effect of one call on the list of live resources (oldest first). -/
def liveStep (l : List Resource) (c : Call) : List Resource :=
  let l := match c.releases with
    | some r => l.erase r
    | none => l
  match c.acquires with
  | some r => l ++ [r]
  | none => l

/-- The resources acquired and not yet released at the end of a trace, in the order
of their acquisition. -/
def live (t : List Call) : List Resource :=
  t.foldl liveStep []

/-- Release of one of the handles held in the fields of `SDLApp`. -/
def Call.isPersistentRelease : Call → Bool
  | .SDL_DestroyTexture _ => true
  | .Mix_FreeChunk _ => true
  | .Mix_FreeMusic _ => true
  | .TTF_CloseFont _ => true
  | .SDL_DestroyRenderer _ => true
  | .SDL_DestroyWindow _ => true
  | _ => false

/-- Shutdown of one of the four subsystems. -/
def Call.isShutdown : Call → Bool
  | .TTF_Quit => true
  | .Mix_Quit => true
  | .IMG_Quit => true
  | .SDL_Quit => true
  | _ => false

/-- A successful `SDL_CreateWindow` whose flags contain `SDL_WINDOW_SHOWN`. -/
def Call.showsWindow : Call → Bool
  | .SDL_CreateWindow _ _ _ _ _ flags ret =>
    decide (flags &&& SDL_WINDOW_SHOWN ≠ 0) && decide (ret ≠ nullptr)
  | _ => false

/-- Number of calls of a trace that release the resource `r`. -/
def releaseCount (r : Resource) (t : List Call) : Nat :=
  t.countP (fun c => decide (c.releases = some r))

/-- An environment in which every acquisition succeeds. -/
def demoEnv : Env :=
  { SDL_Init := 0, IMG_Init := IMG_INIT_PNG, Mix_OpenAudio := 0, TTF_Init := 0,
    SDL_CreateWindow := 1, SDL_CreateRenderer := 2, TTF_OpenFont := 3,
    Mix_LoadMUS := 4, Mix_LoadWAV := 5, IMG_Load := 6,
    SDL_CreateTextureFromSurface := 7 }

/-- The environment `demoEnv` with the image file missing: `IMG_Load` returns null. -/
def imageMissingEnv : Env :=
  { demoEnv with IMG_Load := nullptr }

/-- A frame whose pending events are `events`; the text rasterises to a 480x32 surface
at address 8 and uploads to a texture at address 9. -/
def demoFrame (events : List Event) : FrameInput :=
  { events := events, textSurface := 8, textW := 480, textH := 32, textTexture := 9 }

/-- A P press. -/
def pressP : Event := { type := SDL_KEYDOWN, sym := SDLK_p }

/-- An S press. -/
def pressS : Event := { type := SDL_KEYDOWN, sym := SDLK_s }

/-- A window-close request. -/
def quitEvent : Event := { type := SDL_QUIT, sym := 0 }

/-- Two iterations with key presses only, a quit request in the third. -/
def demoFrames : Nat → FrameInput
  | 0 => demoFrame [pressP, pressS]
  | 1 => demoFrame [pressP]
  | _ => demoFrame [pressS, quitEvent, pressP]

/-- A batch without quit request: P, S, the X key, and a mouse-motion event. -/
def keysOnlyBatch : List Event :=
  [pressP, pressS, { type := SDL_KEYDOWN, sym := 120 }, { type := 0x400, sym := 0 }]

/-- The batch `keysOnlyBatch` in every iteration, never a quit request. -/
def keysOnlyFrames : Nat → FrameInput :=
  fun _ => demoFrame keysOnlyBatch

/-- The calls `render` adds to the trace in a frame that completes, for the
application fields `app` and the frame input `f`. -/
def renderCalls (f : FrameInput) (app : SDLApp) : List Call :=
  [.SDL_SetRenderDrawColor app.renderer 255 255 255 255,
   .SDL_RenderClear app.renderer,
   .SDL_RenderCopy app.renderer app.image ⟨50, 50, 200, 200⟩,
   .TTF_RenderText_Solid app.font "Press P to play/pause music, S for sound effect"
     ⟨0, 0, 0, 0⟩ f.textSurface,
   .SDL_CreateTextureFromSurface app.renderer f.textSurface f.textTexture,
   .SDL_RenderCopy app.renderer f.textTexture ⟨50, 500, f.textW, f.textH⟩,
   .SDL_FreeSurface f.textSurface,
   .SDL_DestroyTexture f.textTexture,
   .SDL_RenderPresent app.renderer]

/-- The calls of an `init` in which every acquisition succeeds, in order. -/
def initCalls (env : Env) : List Call :=
  [.SDL_Init (SDL_INIT_VIDEO ||| SDL_INIT_AUDIO) env.SDL_Init,
   .IMG_Init IMG_INIT_PNG env.IMG_Init,
   .Mix_OpenAudio 44100 MIX_DEFAULT_FORMAT 2 2048 env.Mix_OpenAudio,
   .TTF_Init env.TTF_Init,
   .SDL_CreateWindow "SDL Multimedia Example" SDL_WINDOWPOS_UNDEFINED SDL_WINDOWPOS_UNDEFINED
     SCREEN_WIDTH SCREEN_HEIGHT SDL_WINDOW_SHOWN env.SDL_CreateWindow,
   .SDL_CreateRenderer env.SDL_CreateWindow (-1) SDL_RENDERER_ACCELERATED env.SDL_CreateRenderer,
   .TTF_OpenFont "resources/Times New Roman.ttf" 28 env.TTF_OpenFont,
   .Mix_LoadMUS "resources/monkdev.mp3" env.Mix_LoadMUS,
   .Mix_LoadWAV "resources/btn.wav" env.Mix_LoadWAV,
   .IMG_Load "resources/rev.jpg" env.IMG_Load,
   .SDL_CreateTextureFromSurface env.SDL_CreateRenderer env.IMG_Load
     env.SDL_CreateTextureFromSurface,
   .SDL_FreeSurface env.IMG_Load]

/-- The fields of the application after an `init` in which every acquisition
succeeds. -/
def initApp (env : Env) : SDLApp :=
  { window := env.SDL_CreateWindow, renderer := env.SDL_CreateRenderer,
    font := env.TTF_OpenFont, music := env.Mix_LoadMUS, soundEffect := env.Mix_LoadWAV,
    image := env.SDL_CreateTextureFromSurface, running := true }

/-- Position of a step in `stepOrder`. -/
def Step.index : Step → Nat
  | .SDL_Init => 0
  | .IMG_Init => 1
  | .Mix_OpenAudio => 2
  | .TTF_Init => 3
  | .window => 4
  | .renderer => 5
  | .font => 6
  | .music => 7
  | .sound => 8
  | .imageDecode => 9
  | .textureUpload => 10

/-- Number of calls of `initCalls` made before the failure of a step is logged: the
step's own call is the last one, except for the texture upload, which is followed by
the free of the decoded surface. -/
def Step.callCount : Step → Nat
  | .textureUpload => 12
  | st => st.index + 1

/-- The state in which the run of `demoEnv` and `demoFrames` ends. -/
def demoFinal : Sys :=
  match main 5 demoEnv demoFrames with
  | .done (_, s) => s
  | _ => Sys.initial

/-- A quit request in every batch while `TTF_RenderText_Solid` returns null (and the
texture creation from the null surface fails as well). -/
def quitNullTextFrames : Nat → FrameInput :=
  fun _ => { events := [quitEvent], textSurface := nullptr, textW := 0, textH := 0,
             textTexture := nullptr }

/-! ## Lemmas on `handleEvents` -/

theorem call_app (s : Sys) (c : Call) : (s.call c).app = s.app := rfl

theorem call_mixer (s : Sys) (c : Call) : (s.call c).mixer = s.mixer := rfl

theorem call_trace (s : Sys) (c : Call) : (s.call c).trace = s.trace ++ [c] := rfl

theorem handleEvent_running_of_ne_quit (e : Event) (s : Sys) (h : e.type ≠ SDL_QUIT) :
    (handleEvent e s).app.running = s.app.running := by
  unfold handleEvent
  dsimp only
  rw [if_neg h]
  split_ifs <;> rfl

theorem handleEvent_running_false (e : Event) (s : Sys) (h : s.app.running = false) :
    (handleEvent e s).app.running = false := by
  unfold handleEvent
  dsimp only
  split_ifs <;> simp [Sys.call, h]

theorem handleEvent_quit (e : Event) (s : Sys) (h : e.type = SDL_QUIT) :
    (handleEvent e s).app.running = false := by
  unfold handleEvent
  simp [h]

theorem handleEvents_running_false (batch : List Event) :
    ∀ s : Sys, s.app.running = false → (handleEvents batch s).app.running = false := by
  induction batch with
  | nil => intro s h; simpa [handleEvents, Sys.call] using h
  | cons e rest ih =>
    intro s h
    simp only [handleEvents]
    exact ih _ (handleEvent_running_false e _ (by simpa [Sys.call] using h))

theorem handleEvents_running_of_hasQuit (batch : List Event) :
    ∀ s : Sys, hasQuit batch → (handleEvents batch s).app.running = false := by
  induction batch with
  | nil => intro s h; obtain ⟨e, he, _⟩ := h; cases he
  | cons e rest ih =>
    intro s h
    simp only [handleEvents]
    by_cases hq : e.type = SDL_QUIT
    · exact handleEvents_running_false rest _ (handleEvent_quit e _ hq)
    · apply ih
      obtain ⟨e', he', hq'⟩ := h
      rcases List.mem_cons.mp he' with rfl | hmem
      · exact absurd hq' hq
      · exact ⟨e', hmem, hq'⟩

theorem handleEvents_running_of_noQuit (batch : List Event) :
    ∀ s : Sys, noQuit batch → (handleEvents batch s).app.running = s.app.running := by
  induction batch with
  | nil => intro s _; rfl
  | cons e rest ih =>
    intro s h
    simp only [handleEvents]
    rw [ih _ (fun e' he' => h e' (List.mem_cons_of_mem _ he')),
      handleEvent_running_of_ne_quit e _ (h e (List.mem_cons_self _ _))]
    rfl

/-- C1. A batch of pending events that contains a quit event, at any position and mixed
with any other events, leaves the running flag false at the end of the drain, from every
state (whatever the flag, the handles, the music state and the earlier calls were). -/
theorem handleEvents_quit_stops (batch : List Event) (s : Sys) (h : hasQuit batch) :
    (handleEvents batch s).app.running = false :=
  handleEvents_running_of_hasQuit batch s h

/-- Witness of C1: a P press, a quit event and an S press, drained while music plays. -/
theorem handleEvents_quit_stops_witness :
    hasQuit [⟨SDL_KEYDOWN, SDLK_p⟩, ⟨SDL_QUIT, 0⟩, ⟨SDL_KEYDOWN, SDLK_s⟩] ∧
    (handleEvents [⟨SDL_KEYDOWN, SDLK_p⟩, ⟨SDL_QUIT, 0⟩, ⟨SDL_KEYDOWN, SDLK_s⟩]
      { app := SDLApp.new, mixer := .Playing, trace := [] }).app.running = false :=
  ⟨by decide, handleEvents_quit_stops _ _ (by decide)⟩

/-! ## The music toggle -/

theorem handleEvent_mixer_of_isPPress (e : Event) (s : Sys) (h : isPPress e = true) :
    (handleEvent e s).mixer = toggle s.mixer := by
  simp only [isPPress, Bool.and_eq_true, decide_eq_true_eq] at h
  obtain ⟨ht, hsym⟩ := h
  have hq : e.type ≠ SDL_QUIT := by rw [ht]; decide
  unfold handleEvent
  dsimp only
  rw [if_neg hq, if_pos ht, if_pos hsym]
  cases hm : s.mixer <;>
    simp [Sys.call, Mix_PlayingMusic, Mix_PausedMusic, Mix_PlayMusic, Mix_ResumeMusic,
      Mix_PauseMusic, toggle, hm]

theorem handleEvent_mixer_of_not_isPPress (e : Event) (s : Sys) (h : isPPress e = false) :
    (handleEvent e s).mixer = s.mixer := by
  unfold handleEvent
  dsimp only
  by_cases hq : e.type = SDL_QUIT
  · rw [if_pos hq]
  · rw [if_neg hq]
    by_cases hk : e.type = SDL_KEYDOWN
    · have hsym : e.sym ≠ SDLK_p := by
        intro hp
        simp [isPPress, hk, hp] at h
      rw [if_pos hk, if_neg hsym]
      split_ifs <;> rfl
    · rw [if_neg hk]

theorem handleEvents_mixer (batch : List Event) :
    ∀ s : Sys, (handleEvents batch s).mixer = toggle^[pPresses batch] s.mixer := by
  induction batch with
  | nil => intro s; rfl
  | cons e rest ih =>
    intro s
    simp only [handleEvents]
    rw [ih]
    by_cases hp : isPPress e = true
    · rw [handleEvent_mixer_of_isPPress e _ hp]
      simp [pPresses, List.countP_cons_of_pos, hp, Sys.call]
    · have hp' : isPPress e = false := by simpa using hp
      rw [handleEvent_mixer_of_not_isPPress e _ hp']
      simp [pPresses, hp', Sys.call]

theorem musicAfter_succ (n : Nat) : musicAfter (n + 1) = toggle (musicAfter n) := by
  unfold musicAfter
  rcases Nat.even_or_odd n with he | ho
  · have h0 : n % 2 = 0 := Nat.even_iff.mp he
    have h1 : (n + 1) % 2 = 1 := by omega
    by_cases hn : n = 0
    · subst hn; rfl
    · simp [hn, h0, h1, toggle]
  · have h1 : n % 2 = 1 := Nat.odd_iff.mp ho
    have h0 : (n + 1) % 2 = 0 := by omega
    have hn : n ≠ 0 := by omega
    simp [hn, h0, h1, toggle]

theorem toggle_iterate_stopped (n : Nat) : toggle^[n] .Stopped = musicAfter n := by
  induction n with
  | zero => rfl
  | succ n ih => rw [Function.iterate_succ_apply', ih, musicAfter_succ]

theorem toggle_iterate_ne_stopped (n : Nat) (m : MusicState) (h : m ≠ .Stopped) :
    toggle^[n] m ≠ .Stopped := by
  induction n with
  | zero => simpa using h
  | succ n ih =>
    rw [Function.iterate_succ_apply']
    cases hm : toggle^[n] m <;> simp_all [toggle]

/-- C3. From `Stopped`, the music state after `handleEvents` has processed a sequence of
events depends only on the number `n` of P presses in it: `Stopped` for `n = 0`, `Playing`
for odd `n`, `Paused` for even positive `n`.  Once started the music never returns to
`Stopped`; an event that is not a P press leaves the music state unchanged, and an S
press does nothing but issue one `Mix_PlayChannel(-1, soundEffect, 0)`. -/
theorem music_state_after_presses (batch : List Event) (s : Sys) (hs : s.mixer = .Stopped) :
    (handleEvents batch s).mixer = musicAfter (pPresses batch) ∧
    ((handleEvents batch s).mixer = .Stopped ↔ pPresses batch = 0) ∧
    (∀ (later : List Event) (s' : Sys), s'.mixer ≠ .Stopped →
      (handleEvents later s').mixer ≠ .Stopped) ∧
    (∀ (e : Event) (s' : Sys), isPPress e = false → (handleEvent e s').mixer = s'.mixer) ∧
    (∀ (e : Event) (s' : Sys), e.type = SDL_KEYDOWN → e.sym = SDLK_s →
      handleEvent e s' = s'.call (.Mix_PlayChannel (-1) s'.app.soundEffect 0)) := by
  have hmain : (handleEvents batch s).mixer = musicAfter (pPresses batch) := by
    rw [handleEvents_mixer, hs, toggle_iterate_stopped]
  refine ⟨hmain, ?_, ?_, ?_, ?_⟩
  · rw [hmain]
    unfold musicAfter
    constructor
    · intro h
      by_contra hn
      simp only [hn, if_false] at h
      split_ifs at h
    · intro h
      simp [h]
  · intro later s' h
    rw [handleEvents_mixer]
    exact toggle_iterate_ne_stopped _ _ h
  · exact handleEvent_mixer_of_not_isPPress
  · intro e s' ht hsym
    have hq : e.type ≠ SDL_QUIT := by rw [ht]; decide
    have hp : e.sym ≠ SDLK_p := by rw [hsym]; decide
    unfold handleEvent
    dsimp only
    rw [if_neg hq, if_pos ht, if_neg hp, if_pos hsym]

/-- Witness of C3: P, S, P, another key, P from a stopped player ends in `Playing`. -/
theorem music_state_after_presses_witness :
    Sys.initial.mixer = .Stopped ∧
    (handleEvents [pressP, pressS, pressP, ⟨SDL_KEYDOWN, 120⟩, pressP] Sys.initial).mixer
      = .Playing :=
  ⟨rfl, (music_state_after_presses [pressP, pressS, pressP, ⟨SDL_KEYDOWN, 120⟩, pressP]
    Sys.initial rfl).1.trans (by decide)⟩

/-! ## `render`, one iteration, and the loop -/

theorem render_of_surface (f : FrameInput) (s : Sys) (h : f.textSurface ≠ nullptr) :
    render f s = some { s with trace := s.trace ++ renderCalls f s.app } := by
  simp [render, renderCalls, Sys.call, h, SCREEN_HEIGHT]

theorem render_of_null (f : FrameInput) (s : Sys) (h : f.textSurface = nullptr) :
    render f s = none := by
  simp [render, h]

theorem render_app (f : FrameInput) (s s' : Sys) (h : render f s = some s') :
    s'.app = s.app ∧ s'.mixer = s.mixer := by
  by_cases hn : f.textSurface = nullptr
  · rw [render_of_null f s hn] at h; cases h
  · rw [render_of_surface f s hn] at h
    cases h
    exact ⟨rfl, rfl⟩

theorem iteration_eq_some (f : FrameInput) (s s' : Sys) (h : iteration f s = some s') :
    ∃ sr, render f (handleEvents f.events s) = some sr ∧ s' = sr.call (.SDL_Delay 16) := by
  unfold iteration at h
  cases hr : render f (handleEvents f.events s) with
  | none => rw [hr] at h; cases h
  | some sr =>
    rw [hr] at h
    cases h
    exact ⟨sr, rfl, rfl⟩

theorem iteration_of_surface (f : FrameInput) (s : Sys) (h : f.textSurface ≠ nullptr) :
    ∃ s', iteration f s = some s' := by
  unfold iteration
  rw [render_of_surface f _ h]
  exact ⟨_, rfl⟩

theorem iteration_running (f : FrameInput) (s s' : Sys) (h : iteration f s = some s') :
    s'.app.running = (handleEvents f.events s).app.running := by
  obtain ⟨sr, hr, rfl⟩ := iteration_eq_some f s s' h
  rw [call_app, (render_app f _ sr hr).1]

theorem run_of_not_running (fuel : Nat) (frames : Nat → FrameInput) (s : Sys)
    (h : s.app.running = false) : run fuel frames s = .done s := by
  cases fuel <;> simp [run, h]

theorem run_ne_done_of_noQuit (fuel : Nat) :
    ∀ (frames : Nat → FrameInput) (s : Sys), s.app.running = true →
      (∀ i, noQuit (frames i).events) → ∀ s', run fuel frames s ≠ .done s' := by
  induction fuel with
  | zero => intro frames s hrun _ s'; simp [run, hrun]
  | succ fuel ih =>
    intro frames s hrun hno s'
    simp only [run, hrun, if_true]
    cases hit : iteration (frames 0) s with
    | none => simp
    | some s1 =>
      simp only
      apply ih _ s1 _ (fun i => hno (i + 1))
      rw [iteration_running _ _ _ hit, handleEvents_running_of_noQuit _ _ (hno 0), hrun]

theorem run_outOfFuel_of_noQuit (fuel : Nat) :
    ∀ (frames : Nat → FrameInput) (s : Sys), s.app.running = true →
      (∀ i, noQuit (frames i).events) → (∀ i, (frames i).textSurface ≠ nullptr) →
      run fuel frames s = .outOfFuel := by
  induction fuel with
  | zero => intro frames s hrun _ _; simp [run, hrun]
  | succ fuel ih =>
    intro frames s hrun hno htext
    simp only [run, hrun, if_true]
    obtain ⟨s1, hit⟩ := iteration_of_surface (frames 0) s (htext 0)
    rw [hit]
    simp only
    apply ih _ s1 _ (fun i => hno (i + 1)) (fun i => htext (i + 1))
    rw [iteration_running _ _ _ hit, handleEvents_running_of_noQuit _ _ (hno 0), hrun]

theorem iterations_running_of_noQuit (n : Nat) :
    ∀ (frames : Nat → FrameInput) (s s' : Sys), s.app.running = true →
      (∀ i, noQuit (frames i).events) → iterations n frames s = some s' →
      s'.app.running = true := by
  induction n with
  | zero =>
    intro frames s s' hrun _ h
    simp only [iterations, Option.some.injEq] at h
    rw [← h]; exact hrun
  | succ n ih =>
    intro frames s s' hrun hno h
    simp only [iterations] at h
    cases hit : iteration (frames 0) s with
    | none => rw [hit] at h; cases h
    | some s1 =>
      rw [hit] at h
      simp only at h
      apply ih _ s1 s' _ (fun i => hno (i + 1)) h
      rw [iteration_running _ _ _ hit, handleEvents_running_of_noQuit _ _ (hno 0), hrun]

/-! ## Shape of the trace of the loop -/

theorem handleEvent_trace (e : Event) (s : Sys) :
    ∃ ext, (handleEvent e s).trace = s.trace ++ ext ∧
      ∀ c ∈ ext, c.inHandleEvents = true ∧ c.isDrainEnd = false := by
  unfold handleEvent
  dsimp only
  split_ifs
  · exact ⟨[], by simp, by simp⟩
  · exact ⟨[.Mix_PlayingMusic (Mix_PlayingMusic s.mixer), .Mix_PlayMusic s.app.music (-1)],
      by simp [Sys.call], by simp [Call.inHandleEvents, Call.isDrainEnd]⟩
  · exact ⟨[.Mix_PlayingMusic (Mix_PlayingMusic s.mixer),
        .Mix_PausedMusic (Mix_PausedMusic s.mixer), .Mix_ResumeMusic],
      by simp [Sys.call], by simp [Call.inHandleEvents, Call.isDrainEnd]⟩
  · exact ⟨[.Mix_PlayingMusic (Mix_PlayingMusic s.mixer),
        .Mix_PausedMusic (Mix_PausedMusic s.mixer), .Mix_PauseMusic],
      by simp [Sys.call], by simp [Call.inHandleEvents, Call.isDrainEnd]⟩
  · exact ⟨[.Mix_PlayChannel (-1) s.app.soundEffect 0],
      by simp [Sys.call], by simp [Call.inHandleEvents, Call.isDrainEnd]⟩
  · exact ⟨[], by simp, by simp⟩
  · exact ⟨[], by simp, by simp⟩

theorem handleEvents_trace (batch : List Event) :
    ∀ s : Sys, ∃ ext, (handleEvents batch s).trace = s.trace ++ ext ∧
      (∀ c ∈ ext, c.inHandleEvents = true) ∧ ext.countP Call.isDrainEnd = 1 := by
  induction batch with
  | nil =>
    intro s
    exact ⟨[.SDL_PollEvent none], rfl, by simp [Call.inHandleEvents], by simp [Call.isDrainEnd]⟩
  | cons e rest ih =>
    intro s
    simp only [handleEvents]
    obtain ⟨ext1, h1, hp1⟩ := handleEvent_trace e (s.call (.SDL_PollEvent (some e)))
    obtain ⟨ext2, h2, hp2, hc2⟩ := ih (handleEvent e (s.call (.SDL_PollEvent (some e))))
    refine ⟨.SDL_PollEvent (some e) :: (ext1 ++ ext2), ?_, ?_, ?_⟩
    · rw [h2, h1, call_trace]; simp
    · intro c hc
      rcases List.mem_cons.mp hc with rfl | hc
      · rfl
      · rcases List.mem_append.mp hc with hc | hc
        · exact (hp1 c hc).1
        · exact hp2 c hc
    · have h0 : ext1.countP Call.isDrainEnd = 0 :=
        List.countP_eq_zero.mpr (fun c hc => by simp [(hp1 c hc).2])
      simp [List.countP_cons, List.countP_append, h0, hc2, Call.isDrainEnd]

theorem handleEvents_app (batch : List Event) :
    ∀ (s : Sys) (r : Bool), { (handleEvents batch s).app with running := r }
      = { s.app with running := r } := by
  induction batch with
  | nil => intro s r; rfl
  | cons e rest ih =>
    intro s r
    simp only [handleEvents]
    rw [ih]
    unfold handleEvent
    dsimp only
    split_ifs <;> rfl

theorem inHandleEvents_isPresent (c : Call) (h : c.inHandleEvents = true) :
    c.isPresent = false ∧ c.isDelay = false ∧ c.acquires = none ∧ c.releases = none := by
  cases c <;> simp_all [Call.inHandleEvents, Call.isPresent, Call.isDelay, Call.acquires,
    Call.releases]

theorem iteration_trace (f : FrameInput) (s s' : Sys) (h : iteration f s = some s') :
    ∃ ext, s'.trace = s.trace ++ ext ∧ ext.countP Call.isDrainEnd = 1 ∧
      ext.countP Call.isPresent = 1 ∧ ext.countP Call.isDelay = 1 := by
  obtain ⟨sr, hr, rfl⟩ := iteration_eq_some f s s' h
  obtain ⟨ext, he, hp, hc⟩ := handleEvents_trace f.events s
  have hn : f.textSurface ≠ nullptr := by
    intro hn; rw [render_of_null f _ hn] at hr; cases hr
  rw [render_of_surface f _ hn] at hr
  cases hr
  have hpres : ext.countP Call.isPresent = 0 :=
    List.countP_eq_zero.mpr (fun c hc => by simp [(inHandleEvents_isPresent c (hp c hc)).1])
  have hdel : ext.countP Call.isDelay = 0 :=
    List.countP_eq_zero.mpr (fun c hc => by simp [(inHandleEvents_isPresent c (hp c hc)).2.1])
  refine ⟨ext ++ (renderCalls f (handleEvents f.events s).app ++ [.SDL_Delay 16]),
    ?_, ?_, ?_, ?_⟩
  · simp only [call_trace, he, List.append_assoc]
  · simp [renderCalls, List.countP_append, List.countP_cons, hc, Call.isDrainEnd]
  · simp [renderCalls, List.countP_append, List.countP_cons, hpres, Call.isPresent]
  · simp [renderCalls, List.countP_append, List.countP_cons, hdel, Call.isDelay]

theorem iterations_trace (n : Nat) :
    ∀ (frames : Nat → FrameInput) (s s' : Sys), iterations n frames s = some s' →
      ∃ ext, s'.trace = s.trace ++ ext ∧ ext.countP Call.isDrainEnd = n ∧
        ext.countP Call.isPresent = n ∧ ext.countP Call.isDelay = n := by
  induction n with
  | zero =>
    intro frames s s' h
    simp only [iterations, Option.some.injEq] at h
    subst h
    exact ⟨[], by simp, rfl, rfl, rfl⟩
  | succ n ih =>
    intro frames s s' h
    simp only [iterations] at h
    cases hit : iteration (frames 0) s with
    | none => rw [hit] at h; cases h
    | some s1 =>
      rw [hit] at h
      simp only at h
      obtain ⟨ext1, h1, a1, b1, c1⟩ := iteration_trace _ _ _ hit
      obtain ⟨ext2, h2, a2, b2, c2⟩ := ih _ s1 s' h
      refine ⟨ext1 ++ ext2, ?_, ?_, ?_, ?_⟩
      · rw [h2, h1, List.append_assoc]
      · rw [List.countP_append, a1, a2, Nat.add_comm]
      · rw [List.countP_append, b1, b2, Nat.add_comm]
      · rw [List.countP_append, c1, c2, Nat.add_comm]

theorem run_outOfFuel_before_quit (j : Nat) :
    ∀ (frames : Nat → FrameInput) (s : Sys), s.app.running = true →
      (∀ i < j, noQuit (frames i).events) → (∀ i < j, (frames i).textSurface ≠ nullptr) →
      run j frames s = .outOfFuel := by
  induction j with
  | zero => intro frames s hrun _ _; simp [run, hrun]
  | succ j ih =>
    intro frames s hrun hno htext
    simp only [run, hrun, if_true]
    obtain ⟨s1, hit⟩ := iteration_of_surface (frames 0) s (htext 0 (Nat.succ_pos _))
    rw [hit]
    simp only
    apply ih _ s1 _ (fun i hi => hno (i + 1) (Nat.succ_lt_succ hi))
      (fun i hi => htext (i + 1) (Nat.succ_lt_succ hi))
    rw [iteration_running _ _ _ hit,
      handleEvents_running_of_noQuit _ _ (hno 0 (Nat.succ_pos _)), hrun]

theorem run_done_at_quit (m : Nat) :
    ∀ (frames : Nat → FrameInput) (s : Sys) (fuel : Nat), s.app.running = true →
      (∀ i < m, noQuit (frames i).events) → hasQuit (frames m).events →
      (∀ i < m + 1, (frames i).textSurface ≠ nullptr) → m + 1 ≤ fuel →
      ∃ s', run fuel frames s = .done s' ∧ iterations (m + 1) frames s = some s' ∧
        s'.app.running = false := by
  induction m with
  | zero =>
    intro frames s fuel hrun _ hq htext hfuel
    obtain ⟨fuel, rfl⟩ : ∃ f, fuel = f + 1 := ⟨fuel - 1, by omega⟩
    obtain ⟨s1, hit⟩ := iteration_of_surface (frames 0) s (htext 0 (by omega))
    have h1 : s1.app.running = false := by
      rw [iteration_running _ _ _ hit, handleEvents_running_of_hasQuit _ _ hq]
    refine ⟨s1, ?_, ?_, h1⟩
    · simp only [run, hrun, if_true, hit]
      exact run_of_not_running _ _ _ h1
    · simp [iterations, hit]
  | succ m ih =>
    intro frames s fuel hrun hno hq htext hfuel
    obtain ⟨fuel, rfl⟩ : ∃ f, fuel = f + 1 := ⟨fuel - 1, by omega⟩
    obtain ⟨s1, hit⟩ := iteration_of_surface (frames 0) s (htext 0 (by omega))
    have h1 : s1.app.running = true := by
      rw [iteration_running _ _ _ hit,
        handleEvents_running_of_noQuit _ _ (hno 0 (Nat.succ_pos _)), hrun]
    obtain ⟨s', hr, hi, hf⟩ := ih (fun i => frames (i + 1)) s1 fuel h1
      (fun i hi => hno (i + 1) (Nat.succ_lt_succ hi)) hq
      (fun i hi => htext (i + 1) (Nat.succ_lt_succ hi)) (by omega)
    refine ⟨s', ?_, ?_, hf⟩
    · simp only [run, hrun, if_true, hit]
      exact hr
    · simp only [iterations, hit]
      exact hi

/-- C9, as the code behaves: when the first batch that contains a quit event is the
`k`-th (`k ≥ 1`) and `TTF_RenderText_Solid` returns a non-null surface in each of these
`k` frames, `run` returns after exactly `k` iterations: its final state is that of the
loop body (drain, then render, then `SDL_Delay(16)`) repeated `k` times, the calls it
added contain exactly `k` drains, `k` presented frames and `k` delays, and fewer than
`k` iterations never reach the exit. -/
theorem run_exits_after_quit_batch (k : Nat) (frames : Nat → FrameInput) (s : Sys)
    (fuel : Nat) (hrun : s.app.running = true) (hk : 1 ≤ k)
    (hno : ∀ i < k - 1, noQuit (frames i).events)
    (hq : hasQuit (frames (k - 1)).events)
    (htext : ∀ i < k, (frames i).textSurface ≠ nullptr)
    (hfuel : k ≤ fuel) :
    ∃ s' ext, run fuel frames s = .done s' ∧ iterations k frames s = some s' ∧
      s'.app.running = false ∧
      s'.trace = s.trace ++ ext ∧
      ext.countP Call.isDrainEnd = k ∧
      ext.countP Call.isPresent = k ∧
      ext.countP Call.isDelay = k ∧
      (∀ j < k, run j frames s = .outOfFuel) ∧
      (∀ (f : FrameInput) (s0 s1 : Sys), iteration f s0 = some s1 →
        ∃ sr, render f (handleEvents f.events s0) = some sr ∧
          s1 = sr.call (.SDL_Delay 16)) := by
  obtain ⟨m, rfl⟩ : ∃ m, k = m + 1 := ⟨k - 1, by omega⟩
  simp only [Nat.add_sub_cancel] at hno hq
  obtain ⟨s', hr, hi, hf⟩ := run_done_at_quit m frames s fuel hrun hno hq htext hfuel
  obtain ⟨ext, he, a, b, c⟩ := iterations_trace (m + 1) frames s s' hi
  refine ⟨s', ext, hr, hi, hf, he, a, b, c, ?_, iteration_eq_some⟩
  intro j hj
  exact run_outOfFuel_before_quit j frames s hrun
    (fun i hi => hno i (by omega)) (fun i hi => htext i (by omega))

/-- Witness of the amended C9: after a successful `init`, two batches of key presses and
a quit request in the third; `run` returns after three iterations. -/
theorem run_exits_after_quit_batch_witness :
    (init demoEnv Sys.initial).2.app.running = true ∧
    (∀ i < 3 - 1, noQuit (demoFrames i).events) ∧
    hasQuit (demoFrames (3 - 1)).events ∧
    (∀ i < 3, (demoFrames i).textSurface ≠ nullptr) ∧
    ∃ s' ext, run 5 demoFrames (init demoEnv Sys.initial).2 = .done s' ∧
      iterations 3 demoFrames (init demoEnv Sys.initial).2 = some s' ∧
      s'.app.running = false ∧
      s'.trace = (init demoEnv Sys.initial).2.trace ++ ext ∧
      ext.countP Call.isDrainEnd = 3 ∧
      ext.countP Call.isPresent = 3 ∧
      ext.countP Call.isDelay = 3 ∧
      (∀ j < 3, run j demoFrames (init demoEnv Sys.initial).2 = .outOfFuel) ∧
      (∀ (f : FrameInput) (s0 s1 : Sys), iteration f s0 = some s1 →
        ∃ sr, render f (handleEvents f.events s0) = some sr ∧
          s1 = sr.call (.SDL_Delay 16)) :=
  ⟨by decide, by decide, by decide, by decide,
   run_exits_after_quit_batch 3 demoFrames (init demoEnv Sys.initial).2 5
    (by decide) (by decide) (by decide) (by decide) (by decide) (by decide)⟩

/-- Counterexample to C9 as stated: after a successful `init`, the first batch contains a
quit event (`k = 1`) but the text does not rasterise; the drain clears the running flag,
and the frame then dereferences the null surface at line 155, so `run` does not return
after one iteration, whatever the number of iterations followed. -/
theorem run_crashes_on_null_text_surface :
    (init demoEnv Sys.initial).1 = true ∧
    (init demoEnv Sys.initial).2.app.running = true ∧
    hasQuit (quitNullTextFrames (1 - 1)).events ∧
    (handleEvents (quitNullTextFrames 0).events (init demoEnv Sys.initial).2).app.running
      = false ∧
    render (quitNullTextFrames 0)
      (handleEvents (quitNullTextFrames 0).events (init demoEnv Sys.initial).2) = none ∧
    iterations 1 quitNullTextFrames (init demoEnv Sys.initial).2 = none ∧
    run 1 quitNullTextFrames (init demoEnv Sys.initial).2 = .crashed ∧
    run 5 quitNullTextFrames (init demoEnv Sys.initial).2 = .crashed ∧
    main 5 demoEnv quitNullTextFrames = .crashed :=
  ⟨by decide, by decide, by decide, by decide, by decide, by decide, by decide, by decide,
   by decide⟩

/-! ## Live resources across a frame -/

theorem live_append (t ext : List Call) : live (t ++ ext) = ext.foldl liveStep (live t) := by
  simp [live, List.foldl_append]

theorem foldl_liveStep_of_inert (ext : List Call) :
    ∀ l : List Resource, (∀ c ∈ ext, c.acquires = none ∧ c.releases = none) →
      ext.foldl liveStep l = l := by
  induction ext with
  | nil => intro l _; rfl
  | cons c rest ih =>
    intro l h
    have hc := h c (List.mem_cons_self _ _)
    simp only [List.foldl_cons]
    rw [show liveStep l c = l by simp [liveStep, hc.1, hc.2]]
    exact ih l (fun c' hc' => h c' (List.mem_cons_of_mem _ hc'))

theorem foldl_liveStep_renderCalls (f : FrameInput) (app : SDLApp) (l : List Resource)
    (hs : f.textSurface ≠ nullptr)
    (hfs : Resource.surface f.textSurface ∉ l) (hft : Resource.texture f.textTexture ∉ l) :
    (renderCalls f app).foldl liveStep l = l := by
  by_cases ht : f.textTexture = nullptr
  · simp [renderCalls, liveStep, Call.acquires, Call.releases, hs, ht,
      List.erase_append_right _ hfs]
  · have hft' : Resource.texture f.textTexture ∉ l ++ [Resource.surface f.textSurface] := by
      simp [hft]
    simp [renderCalls, liveStep, Call.acquires, Call.releases, hs, ht,
      List.erase_append_right _ hfs, List.erase_append_right _ hft]

theorem handleEvents_live (batch : List Event) (s : Sys) :
    live (handleEvents batch s).trace = live s.trace := by
  obtain ⟨ext, he, hp, _⟩ := handleEvents_trace batch s
  rw [he, live_append]
  exact foldl_liveStep_of_inert ext _ (fun c hc =>
    ⟨(inHandleEvents_isPresent c (hp c hc)).2.2.1, (inHandleEvents_isPresent c (hp c hc)).2.2.2⟩)

theorem render_live (f : FrameInput) (s s' : Sys) (h : render f s = some s')
    (hfs : Resource.surface f.textSurface ∉ live s.trace)
    (hft : Resource.texture f.textTexture ∉ live s.trace) :
    live s'.trace = live s.trace := by
  have hn : f.textSurface ≠ nullptr := by
    intro hn; rw [render_of_null f _ hn] at h; cases h
  rw [render_of_surface f _ hn] at h
  cases h
  simp only [live_append]
  exact foldl_liveStep_renderCalls f s.app _ hn hfs hft

theorem iteration_live (f : FrameInput) (s s' : Sys) (h : iteration f s = some s')
    (hfs : Resource.surface f.textSurface ∉ live s.trace)
    (hft : Resource.texture f.textTexture ∉ live s.trace) :
    live s'.trace = live s.trace := by
  obtain ⟨sr, hr, rfl⟩ := iteration_eq_some f s s' h
  rw [call_trace, live_append]
  simp only [List.foldl_cons, List.foldl_nil]
  rw [show liveStep (live sr.trace) (.SDL_Delay 16) = live sr.trace from rfl]
  rw [render_live f _ sr hr (by rwa [handleEvents_live]) (by rwa [handleEvents_live]),
    handleEvents_live]

theorem iterations_live (n : Nat) :
    ∀ (frames : Nat → FrameInput) (s s' : Sys), iterations n frames s = some s' →
      (∀ i < n, Resource.surface (frames i).textSurface ∉ live s.trace ∧
        Resource.texture (frames i).textTexture ∉ live s.trace) →
      live s'.trace = live s.trace := by
  induction n with
  | zero =>
    intro frames s s' h _
    simp only [iterations, Option.some.injEq] at h
    rw [h]
  | succ n ih =>
    intro frames s s' h hfresh
    simp only [iterations] at h
    cases hit : iteration (frames 0) s with
    | none => rw [hit] at h; cases h
    | some s1 =>
      rw [hit] at h
      simp only at h
      have h1 := iteration_live _ _ _ hit (hfresh 0 (Nat.succ_pos _)).1
        (hfresh 0 (Nat.succ_pos _)).2
      rw [ih _ s1 s' h (fun i hi => by rw [h1]; exact hfresh (i + 1) (Nat.succ_lt_succ hi)), h1]

/-- C10. With text rasterisation and texture creation succeeding, one `render` call adds
exactly these calls: draw colour opaque white, clear, copy of the image texture to
(50, 50, 200, 200), rasterisation of the instruction string in black with the loaded
font, texture creation from it, copy of that texture to (50, 500) with the surface's own
width and height, free of the text surface, destruction of the text texture, present.
The text surface and the text texture are each released by exactly one call of the frame
and neither is live when `render` returns, nor after any number of loop iterations;
`render` changes neither the fields of the application nor the music state. -/
theorem render_frame (f : FrameInput) (s : Sys)
    (hs : f.textSurface ≠ nullptr) (ht : f.textTexture ≠ nullptr) :
    ∃ s', render f s = some s' ∧
      s'.trace = s.trace ++
        [.SDL_SetRenderDrawColor s.app.renderer 255 255 255 255,
         .SDL_RenderClear s.app.renderer,
         .SDL_RenderCopy s.app.renderer s.app.image ⟨50, 50, 200, 200⟩,
         .TTF_RenderText_Solid s.app.font "Press P to play/pause music, S for sound effect"
           ⟨0, 0, 0, 0⟩ f.textSurface,
         .SDL_CreateTextureFromSurface s.app.renderer f.textSurface f.textTexture,
         .SDL_RenderCopy s.app.renderer f.textTexture
           ⟨50, (SCREEN_HEIGHT : Int) - 100, f.textW, f.textH⟩,
         .SDL_FreeSurface f.textSurface,
         .SDL_DestroyTexture f.textTexture,
         .SDL_RenderPresent s.app.renderer] ∧
      s'.app = s.app ∧ s'.mixer = s.mixer ∧
      releaseCount (.surface f.textSurface) s'.trace
        = releaseCount (.surface f.textSurface) s.trace + 1 ∧
      releaseCount (.texture f.textTexture) s'.trace
        = releaseCount (.texture f.textTexture) s.trace + 1 ∧
      (Resource.surface f.textSurface ∉ live s.trace →
        Resource.texture f.textTexture ∉ live s.trace → live s'.trace = live s.trace) ∧
      (∀ (n : Nat) (frames : Nat → FrameInput) (s0 sn : Sys),
        iterations n frames s0 = some sn →
        (∀ i < n, Resource.surface (frames i).textSurface ∉ live s0.trace ∧
          Resource.texture (frames i).textTexture ∉ live s0.trace) →
        live sn.trace = live s0.trace) := by
  refine ⟨_, render_of_surface f s hs, ?_, rfl, rfl, ?_, ?_, ?_, ?_⟩
  · simp [renderCalls, SCREEN_HEIGHT]
  · simp [releaseCount, renderCalls, List.countP_append, List.countP_cons, Call.releases, hs]
  · simp [releaseCount, renderCalls, List.countP_append, List.countP_cons, Call.releases, ht]
  · intro hfs hft
    exact render_live f s _ (render_of_surface f s hs) hfs hft
  · intro n frames s0 sn h hfresh
    exact iterations_live n frames s0 sn h hfresh

/-- Witness of C10: the first frame after a successful `init`. -/
theorem render_frame_witness :
    (demoFrame []).textSurface ≠ nullptr ∧ (demoFrame []).textTexture ≠ nullptr ∧
    (render (demoFrame []) (init demoEnv Sys.initial).2).map Sys.app
      = some (init demoEnv Sys.initial).2.app ∧
    (render (demoFrame []) (init demoEnv Sys.initial).2).map (fun s => live s.trace)
      = some (live (init demoEnv Sys.initial).2.trace) := by
  obtain ⟨s', h, _, happ, _, _, _, hlive, _⟩ :=
    render_frame (demoFrame []) (init demoEnv Sys.initial).2 (by decide) (by decide)
  refine ⟨by decide, by decide, ?_, ?_⟩
  · rw [h]; simp [happ]
  · rw [h]
    simp only [Option.map_some']
    rw [hlive (by decide) (by decide)]

/-! ## Initialisation -/

/-- The result of `init` as a decision table: one row per failing step, one for success. -/
theorem init_eq (env : Env) : init env Sys.initial =
    if env.SDL_Init < 0 then
      (false, ⟨SDLApp.new, .Stopped, (initCalls env).take 1 ++
        [.printf "SDL initialization failed: %s\n" (some .SDL_GetError)]⟩)
    else if env.IMG_Init &&& IMG_INIT_PNG = 0 then
      (false, ⟨SDLApp.new, .Stopped, (initCalls env).take 2 ++
        [.printf "SDL_image initialization failed: %s\n" (some .IMG_GetError)]⟩)
    else if env.Mix_OpenAudio < 0 then
      (false, ⟨SDLApp.new, .Stopped, (initCalls env).take 3 ++
        [.printf "SDL_mixer initialization failed: %s\n" (some .Mix_GetError)]⟩)
    else if env.TTF_Init = -1 then
      (false, ⟨SDLApp.new, .Stopped, (initCalls env).take 4 ++
        [.printf "SDL_ttf initialization failed: %s\n" (some .TTF_GetError)]⟩)
    else if env.SDL_CreateWindow = nullptr then
      (false, ⟨{ SDLApp.new with window := env.SDL_CreateWindow }, .Stopped,
        (initCalls env).take 5 ++
        [.printf "Window creation failed: %s\n" (some .SDL_GetError)]⟩)
    else if env.SDL_CreateRenderer = nullptr then
      (false, ⟨{ SDLApp.new with window := env.SDL_CreateWindow,
                                 renderer := env.SDL_CreateRenderer }, .Stopped,
        (initCalls env).take 6 ++
        [.printf "Renderer creation failed: %s\n" (some .SDL_GetError)]⟩)
    else if env.TTF_OpenFont = nullptr then
      (false, ⟨{ initApp env with music := nullptr, soundEffect := nullptr,
                                  image := nullptr }, .Stopped,
        (initCalls env).take 7 ++
        [.printf "Failed to load font: %s\n" (some .TTF_GetError)]⟩)
    else if env.Mix_LoadMUS = nullptr then
      (false, ⟨{ initApp env with soundEffect := nullptr, image := nullptr }, .Stopped,
        (initCalls env).take 8 ++
        [.printf "Failed to load music: %s\n" (some .Mix_GetError)]⟩)
    else if env.Mix_LoadWAV = nullptr then
      (false, ⟨{ initApp env with image := nullptr }, .Stopped,
        (initCalls env).take 9 ++
        [.printf "Failed to load sound effect: %s\n" (some .Mix_GetError)]⟩)
    else if env.IMG_Load = nullptr then
      (false, ⟨{ initApp env with image := nullptr }, .Stopped,
        (initCalls env).take 10 ++
        [.printf "Failed to load image: %s\n" (some .IMG_GetError)]⟩)
    else if env.SDL_CreateTextureFromSurface = nullptr then
      (false, ⟨initApp env, .Stopped, initCalls env ++
        [.printf "Failed to create texture: %s\n" (some .SDL_GetError)]⟩)
    else (true, ⟨initApp env, .Stopped, initCalls env⟩) := by
  rfl

theorem init_elim (env : Env) (P : Bool → List Call → Prop)
    (hfail : ∀ (st : Step) (msg : Call), Step.ok env st = false →
      (∀ st' ∈ stepOrder.take st.index, Step.ok env st' = true) →
      (∃ fmt arg, msg = .printf fmt arg) →
      P false ((initCalls env).take st.callCount ++ [msg]))
    (hok : (∀ st, Step.ok env st = true) → P true (initCalls env)) :
    P (init env Sys.initial).1 (init env Sys.initial).2.trace := by
  rw [init_eq]
  by_cases h1 : env.SDL_Init < 0
  · rw [if_pos h1]
    exact hfail .SDL_Init _ (by simp [Step.ok, h1])
      (by intro st' h; simp [Step.index] at h) ⟨_, _, rfl⟩
  rw [if_neg h1]
  by_cases h2 : env.IMG_Init &&& IMG_INIT_PNG = 0
  · rw [if_pos h2]
    exact hfail .IMG_Init _ (by simp [Step.ok, h2])
      (by intro st' h; simp [Step.index, stepOrder] at h; simp [h, Step.ok, *]) ⟨_, _, rfl⟩
  rw [if_neg h2]
  by_cases h3 : env.Mix_OpenAudio < 0
  · rw [if_pos h3]
    exact hfail .Mix_OpenAudio _ (by simp [Step.ok, h3])
      (by intro st' h; simp [Step.index, stepOrder] at h
          rcases h with rfl | rfl <;> simp [Step.ok, *]) ⟨_, _, rfl⟩
  rw [if_neg h3]
  by_cases h4 : env.TTF_Init = -1
  · rw [if_pos h4]
    exact hfail .TTF_Init _ (by simp [Step.ok, h4])
      (by intro st' h; simp [Step.index, stepOrder] at h
          rcases h with rfl | rfl | rfl <;> simp [Step.ok, *]) ⟨_, _, rfl⟩
  rw [if_neg h4]
  by_cases h5 : env.SDL_CreateWindow = nullptr
  · rw [if_pos h5]
    exact hfail .window _ (by simp [Step.ok, h5])
      (by intro st' h; simp [Step.index, stepOrder] at h
          rcases h with rfl | rfl | rfl | rfl <;> simp [Step.ok, *]) ⟨_, _, rfl⟩
  rw [if_neg h5]
  by_cases h6 : env.SDL_CreateRenderer = nullptr
  · rw [if_pos h6]
    exact hfail .renderer _ (by simp [Step.ok, h6])
      (by intro st' h; simp [Step.index, stepOrder] at h
          rcases h with rfl | rfl | rfl | rfl | rfl <;> simp [Step.ok, *]) ⟨_, _, rfl⟩
  rw [if_neg h6]
  by_cases h7 : env.TTF_OpenFont = nullptr
  · rw [if_pos h7]
    exact hfail .font _ (by simp [Step.ok, h7])
      (by intro st' h; simp [Step.index, stepOrder] at h
          rcases h with rfl | rfl | rfl | rfl | rfl | rfl <;> simp [Step.ok, *]) ⟨_, _, rfl⟩
  rw [if_neg h7]
  by_cases h8 : env.Mix_LoadMUS = nullptr
  · rw [if_pos h8]
    exact hfail .music _ (by simp [Step.ok, h8])
      (by intro st' h; simp [Step.index, stepOrder] at h
          rcases h with rfl | rfl | rfl | rfl | rfl | rfl | rfl <;> simp [Step.ok, *])
      ⟨_, _, rfl⟩
  rw [if_neg h8]
  by_cases h9 : env.Mix_LoadWAV = nullptr
  · rw [if_pos h9]
    exact hfail .sound _ (by simp [Step.ok, h9])
      (by intro st' h; simp [Step.index, stepOrder] at h
          rcases h with rfl | rfl | rfl | rfl | rfl | rfl | rfl | rfl <;> simp [Step.ok, *])
      ⟨_, _, rfl⟩
  rw [if_neg h9]
  by_cases h10 : env.IMG_Load = nullptr
  · rw [if_pos h10]
    exact hfail .imageDecode _ (by simp [Step.ok, h10])
      (by intro st' h; simp [Step.index, stepOrder] at h
          rcases h with rfl | rfl | rfl | rfl | rfl | rfl | rfl | rfl | rfl <;>
            simp [Step.ok, *])
      ⟨_, _, rfl⟩
  rw [if_neg h10]
  by_cases h11 : env.SDL_CreateTextureFromSurface = nullptr
  · rw [if_pos h11]
    exact hfail .textureUpload _ (by simp [Step.ok, h11])
      (by intro st' h; simp [Step.index, stepOrder] at h
          rcases h with rfl | rfl | rfl | rfl | rfl | rfl | rfl | rfl | rfl | rfl <;>
            simp [Step.ok, *])
      ⟨_, _, rfl⟩
  rw [if_neg h11]
  exact hok (by intro st; cases st <;> simp [Step.ok, *])

theorem upToFirstFailure_take (ok : Step → Bool) :
    ∀ (l : List Step) (k : Nat) (st : Step), l.get? k = some st → ok st = false →
      (∀ st' ∈ l.take k, ok st' = true) → upToFirstFailure ok l = l.take (k + 1) := by
  intro l
  induction l with
  | nil => intro k st h; simp at h
  | cons a rest ih =>
    intro k st h hst hbefore
    cases k with
    | zero =>
      simp only [List.get?_cons_zero, Option.some.injEq] at h
      subst h
      simp [upToFirstFailure, hst]
    | succ k =>
      have ha : ok a = true := hbefore a (by simp)
      simp only [List.get?_cons_succ] at h
      simp only [upToFirstFailure, ha, if_true, List.take_succ_cons]
      rw [ih k st h hst (fun st' h' => hbefore st' (by simp [h']))]

theorem upToFirstFailure_all (ok : Step → Bool) :
    ∀ l : List Step, (∀ st ∈ l, ok st = true) → upToFirstFailure ok l = l := by
  intro l
  induction l with
  | nil => intro _; rfl
  | cons a rest ih =>
    intro h
    simp only [upToFirstFailure, h a (List.mem_cons_self _ _), if_true]
    rw [ih (fun st hst => h st (List.mem_cons_of_mem _ hst))]

theorem stepOrder_get_index (st : Step) : stepOrder.get? st.index = some st := by
  cases st <;> rfl

theorem init_true_iff (env : Env) :
    (init env Sys.initial).1 = true ↔ ∀ st, Step.ok env st = true := by
  refine init_elim env (fun b _ => b = true ↔ ∀ st, Step.ok env st = true) ?_ ?_
  · intro st msg hst _ _
    constructor
    · intro h; cases h
    · intro h; rw [h st] at hst; cases hst
  · intro h
    exact ⟨fun _ => h, fun _ => rfl⟩

theorem init_of_all_ok (env : Env) (h : ∀ st, Step.ok env st = true) :
    init env Sys.initial = (true, ⟨initApp env, .Stopped, initCalls env⟩) := by
  have h1 : ¬ env.SDL_Init < 0 := by simpa [Step.ok] using h .SDL_Init
  have h2 : ¬ env.IMG_Init &&& IMG_INIT_PNG = 0 := by simpa [Step.ok] using h .IMG_Init
  have h3 : ¬ env.Mix_OpenAudio < 0 := by simpa [Step.ok] using h .Mix_OpenAudio
  have h4 : ¬ env.TTF_Init = -1 := by simpa [Step.ok] using h .TTF_Init
  have h5 : ¬ env.SDL_CreateWindow = nullptr := by simpa [Step.ok] using h .window
  have h6 : ¬ env.SDL_CreateRenderer = nullptr := by simpa [Step.ok] using h .renderer
  have h7 : ¬ env.TTF_OpenFont = nullptr := by simpa [Step.ok] using h .font
  have h8 : ¬ env.Mix_LoadMUS = nullptr := by simpa [Step.ok] using h .music
  have h9 : ¬ env.Mix_LoadWAV = nullptr := by simpa [Step.ok] using h .sound
  have h10 : ¬ env.IMG_Load = nullptr := by simpa [Step.ok] using h .imageDecode
  have h11 : ¬ env.SDL_CreateTextureFromSurface = nullptr := by
    simpa [Step.ok] using h .textureUpload
  rw [init_eq, if_neg h1, if_neg h2, if_neg h3, if_neg h4, if_neg h5, if_neg h6, if_neg h7,
    if_neg h8, if_neg h9, if_neg h10, if_neg h11]

/-- C2. When no event of any batch is a quit event, the running flag, which the
constructor sets to true and a successful `init` leaves true, is true at the start of
every iteration and still true after every drain, and `run` never returns; with
rasterisation succeeding in every frame the loop is still going whatever number of
iterations is followed.  An event that is not a quit event (a P press, an S press, any
other key or event type) never changes the flag. -/
theorem run_never_exits_without_quit (frames : Nat → FrameInput) (s : Sys)
    (hrun : s.app.running = true) (hno : ∀ i, noQuit (frames i).events) :
    SDLApp.new.running = true ∧
    (∀ env, (init env Sys.initial).1 = true → (init env Sys.initial).2.app.running = true) ∧
    (∀ fuel s', run fuel frames s ≠ .done s') ∧
    (∀ n sn, iterations n frames s = some sn →
      sn.app.running = true ∧ (handleEvents (frames n).events sn).app.running = true) ∧
    ((∀ i, (frames i).textSurface ≠ nullptr) → ∀ fuel, run fuel frames s = .outOfFuel) ∧
    (∀ (e : Event) (s' : Sys), e.type ≠ SDL_QUIT →
      (handleEvent e s').app.running = s'.app.running) := by
  refine ⟨rfl, ?_, ?_, ?_, ?_, ?_⟩
  · intro env h
    rw [init_of_all_ok env ((init_true_iff env).mp h)]
    rfl
  · intro fuel s'
    exact run_ne_done_of_noQuit fuel frames s hrun hno s'
  · intro n sn h
    have hn := iterations_running_of_noQuit n frames s sn hrun hno h
    exact ⟨hn, by rw [handleEvents_running_of_noQuit _ _ (hno n), hn]⟩
  · intro htext fuel
    exact run_outOfFuel_of_noQuit fuel frames s hrun hno htext
  · intro e s' h
    exact handleEvent_running_of_ne_quit e s' h

/-- Witness of C2: after a successful `init`, key presses and a mouse event in every
batch, never a quit request. -/
theorem run_never_exits_without_quit_witness :
    (init demoEnv Sys.initial).2.app.running = true ∧
    (∀ i, noQuit (keysOnlyFrames i).events) ∧
    (∀ fuel s', run fuel keysOnlyFrames (init demoEnv Sys.initial).2 ≠ .done s') :=
  ⟨by decide, fun _ => (by decide : noQuit keysOnlyBatch),
   (run_never_exits_without_quit keysOnlyFrames (init demoEnv Sys.initial).2 (by decide)
    (fun _ => (by decide : noQuit keysOnlyBatch))).2.2.1⟩

/-- C4. `init` (with `loadMedia`) attempts its acquisitions in the order `SDL_Init`,
`IMG_Init`, `Mix_OpenAudio`, `TTF_Init`, window, renderer, font, music, sound sample,
image decode, texture upload, and stops at the first that fails: whatever the libraries
answer, the steps attempted are exactly those up to and including the first failing one,
`init` returns true exactly when every step succeeds, and after a failed font load the
music, the sample, the image decode and the texture upload are not attempted. -/
theorem init_short_circuits (env : Env) :
    stepOrder = [.SDL_Init, .IMG_Init, .Mix_OpenAudio, .TTF_Init, .window, .renderer,
      .font, .music, .sound, .imageDecode, .textureUpload] ∧
    attempted (init env Sys.initial).2.trace = upToFirstFailure (Step.ok env) stepOrder ∧
    ((init env Sys.initial).1 = true ↔ ∀ st, Step.ok env st = true) ∧
    (Step.ok env .font = false →
      ∀ st ∈ [Step.music, Step.sound, Step.imageDecode, Step.textureUpload],
        st ∉ attempted (init env Sys.initial).2.trace) := by
  refine ⟨rfl, ?_, init_true_iff env, ?_⟩
  · refine init_elim env
      (fun _ t => attempted t = upToFirstFailure (Step.ok env) stepOrder) ?_ ?_
    · rintro st msg hst hbefore ⟨fmt, arg, rfl⟩
      rw [upToFirstFailure_take _ _ _ _ (stepOrder_get_index st) hst hbefore]
      cases st <;> rfl
    · intro h
      rw [upToFirstFailure_all _ _ (fun st _ => h st)]
      rfl
  · refine init_elim env
      (fun _ t => Step.ok env .font = false →
        ∀ st ∈ [Step.music, Step.sound, Step.imageDecode, Step.textureUpload],
          st ∉ attempted t) ?_ ?_
    · rintro st msg hst hbefore ⟨fmt, arg, rfl⟩ hfont
      have hlate : ∀ st : Step, 6 < st.index → Step.font ∈ stepOrder.take st.index := by
        intro st h
        cases st <;> simp [Step.index] at h <;> simp [Step.index, stepOrder]
      cases st
      case music => rw [hbefore _ (hlate _ (by decide))] at hfont; cases hfont
      case sound => rw [hbefore _ (hlate _ (by decide))] at hfont; cases hfont
      case imageDecode => rw [hbefore _ (hlate _ (by decide))] at hfont; cases hfont
      case textureUpload => rw [hbefore _ (hlate _ (by decide))] at hfont; cases hfont
      all_goals
        intro st' hst'
        simp only [List.mem_cons, List.mem_singleton, List.not_mem_nil, or_false] at hst'
        rcases hst' with rfl | rfl | rfl | rfl <;>
          simp [attempted, initCalls, Step.callCount, Step.index, Call.step]
    · intro h hfont
      rw [h .font] at hfont
      cases hfont

/-! ## `main` -/

theorem main_of_init_false (fuel : Nat) (env : Env) (frames : Nat → FrameInput)
    (h : (init env Sys.initial).1 = false) :
    main fuel env frames
      = .done (1, (init env Sys.initial).2.call (.printf "Failed to initialize!\n" none)) := by
  cases hi : init env Sys.initial with
  | mk b s0 =>
    rw [hi] at h
    simp only at h
    subst h
    simp only [main, hi]

theorem main_of_init_true (fuel : Nat) (env : Env) (frames : Nat → FrameInput)
    (h : (init env Sys.initial).1 = true) :
    main fuel env frames =
      match run fuel frames (init env Sys.initial).2 with
      | .done s => .done (0, cleanup s)
      | .crashed => .crashed
      | .outOfFuel => .outOfFuel := by
  cases hi : init env Sys.initial with
  | mk b s0 =>
    rw [hi] at h
    simp only at h
    subst h
    simp only [main, hi]

/-- C6. `main` returns 1 exactly when `init` returns false, which is exactly when some
acquisition fails; it returns 0 exactly when `init` succeeds and `run` returns, and the
final state is then that of one `run` followed by one `cleanup`; it returns no other
code. -/
theorem main_exit_code (fuel : Nat) (env : Env) (frames : Nat → FrameInput) :
    (∀ code s, main fuel env frames = .done (code, s) → code = 0 ∨ code = 1) ∧
    (∀ s, main fuel env frames = .done (1, s) ↔
      (init env Sys.initial).1 = false ∧
      s = (init env Sys.initial).2.call (.printf "Failed to initialize!\n" none)) ∧
    (∀ s, main fuel env frames = .done (0, s) ↔
      (init env Sys.initial).1 = true ∧
      ∃ sRun, run fuel frames (init env Sys.initial).2 = .done sRun ∧ s = cleanup sRun) ∧
    ((init env Sys.initial).1 = false ↔ ∃ st, Step.ok env st = false) := by
  have hsteps : (init env Sys.initial).1 = false ↔ ∃ st, Step.ok env st = false := by
    rw [← Bool.not_eq_true, init_true_iff]
    simp
  by_cases hb : (init env Sys.initial).1 = true
  · rw [main_of_init_true fuel env frames hb]
    refine ⟨?_, ?_, ?_, hsteps⟩
    · intro code s h
      cases hr : run fuel frames (init env Sys.initial).2 with
      | done sRun =>
        rw [hr] at h
        simp only [Outcome.done.injEq, Prod.mk.injEq] at h
        exact Or.inl h.1.symm
      | crashed => rw [hr] at h; cases h
      | outOfFuel => rw [hr] at h; cases h
    · intro s
      cases hr : run fuel frames (init env Sys.initial).2 <;> simp [hb]
    · intro s
      cases hr : run fuel frames (init env Sys.initial).2 with
      | done sRun =>
        simp only [Outcome.done.injEq, Prod.mk.injEq, true_and]
        constructor
        · intro h
          exact ⟨hb, sRun, rfl, h.symm⟩
        · rintro ⟨_, s2, h2, h3⟩
          rw [h3, ← h2]
      | crashed => simp
      | outOfFuel => simp
  · have hb' : (init env Sys.initial).1 = false := by simpa using hb
    rw [main_of_init_false fuel env frames hb']
    refine ⟨?_, ?_, ?_, hsteps⟩
    · intro code s h
      simp only [Outcome.done.injEq, Prod.mk.injEq] at h
      exact Or.inr h.1.symm
    · intro s
      simp only [Outcome.done.injEq, Prod.mk.injEq, true_and]
      constructor
      · intro h
        exact ⟨hb', h.symm⟩
      · intro h
        exact h.2.symm
    · intro s
      simp [hb']

/-! ## Failure paths of `init` -/

theorem initCalls_inert (env : Env) :
    ∀ c ∈ initCalls env, c.inHandleEvents = false ∧ c.inRender = false ∧ c.isDelay = false ∧
      c.isPersistentRelease = false ∧ c.isShutdown = false := by
  simp [initCalls, Call.inHandleEvents, Call.inRender, Call.isDelay,
    Call.isPersistentRelease, Call.isShutdown]

theorem initCalls_releases (env : Env) :
    ∀ c ∈ initCalls env, ∀ r, c.releases = some r → c = .SDL_FreeSurface env.IMG_Load := by
  simp [initCalls, Call.releases]

theorem freeSurface_mem_take_callCount (env : Env) (st : Step)
    (h : Call.SDL_FreeSurface env.IMG_Load ∈ (initCalls env).take st.callCount) :
    st = .textureUpload := by
  cases st <;> first | rfl | simp [initCalls, Step.callCount, Step.index] at h

theorem mem_foldl_liveStep (t : List Call) :
    ∀ (l : List Resource) (r : Resource), (r ∈ l ∨ r ∈ t.filterMap Call.acquires) →
      (∀ c ∈ t, c.releases ≠ some r) → r ∈ t.foldl liveStep l := by
  induction t with
  | nil =>
    intro l r h _
    simpa using h
  | cons c rest ih =>
    intro l r h hrel
    simp only [List.foldl_cons]
    apply ih _ r _ (fun c' hc' => hrel c' (List.mem_cons_of_mem _ hc'))
    have hc := hrel c (List.mem_cons_self _ _)
    have hkeep : r ∈ l → r ∈ (match c.releases with
        | some r' => l.erase r'
        | none => l) := by
      intro hl
      cases hr : c.releases with
      | none => exact hl
      | some r' =>
        have hne : r ≠ r' := by
          intro he; rw [hr, he] at hc; exact hc rfl
        exact (List.mem_erase_of_ne hne).mpr hl
    cases hacq : c.acquires with
    | none =>
      rcases h with hl | hmem
      · left; simpa [liveStep, hacq] using hkeep hl
      · right; simpa [List.filterMap_cons, hacq] using hmem
    | some r' =>
      rcases h with hl | hmem
      · left
        simp only [liveStep, hacq, List.mem_append]
        exact Or.inl (hkeep hl)
      · simp only [List.filterMap_cons, hacq, List.mem_cons] at hmem
        rcases hmem with rfl | hmem
        · left; simp [liveStep, hacq]
        · right; exact hmem

theorem mem_live_of_not_released (t : List Call) (r : Resource)
    (hacq : r ∈ t.filterMap Call.acquires) (hrel : ∀ c ∈ t, c.releases ≠ some r) :
    r ∈ live t :=
  mem_foldl_liveStep t [] r (Or.inr hacq) hrel

theorem init_failure_trace (env : Env) (hfail : (init env Sys.initial).1 = false) :
    (∀ c ∈ (init env Sys.initial).2.trace,
      c.inHandleEvents = false ∧ c.inRender = false ∧ c.isDelay = false ∧
      c.isPersistentRelease = false ∧ c.isShutdown = false) ∧
    (∀ c ∈ (init env Sys.initial).2.trace, ∀ r, c.releases = some r →
      c = .SDL_FreeSurface env.IMG_Load ∧ Step.ok env .textureUpload = false ∧
      ∀ st, st ≠ .textureUpload → Step.ok env st = true) := by
  revert hfail
  refine init_elim env (fun b t => b = false →
    (∀ c ∈ t, c.inHandleEvents = false ∧ c.inRender = false ∧ c.isDelay = false ∧
      c.isPersistentRelease = false ∧ c.isShutdown = false) ∧
    (∀ c ∈ t, ∀ r, c.releases = some r →
      c = .SDL_FreeSurface env.IMG_Load ∧ Step.ok env .textureUpload = false ∧
      ∀ st, st ≠ .textureUpload → Step.ok env st = true)) ?_ ?_
  · rintro st msg hst hbefore ⟨fmt, arg, rfl⟩ _
    constructor
    · intro c hc
      rcases List.mem_append.mp hc with hc | hc
      · exact initCalls_inert env c (List.mem_of_mem_take hc)
      · rw [List.mem_singleton.mp hc]
        exact ⟨rfl, rfl, rfl, rfl, rfl⟩
    · intro c hc r hr
      rcases List.mem_append.mp hc with hc | hc
      · have hfree := initCalls_releases env c (List.mem_of_mem_take hc) r hr
        rw [hfree] at hc
        have hst' := freeSurface_mem_take_callCount env st hc
        subst hst'
        refine ⟨hfree, hst, ?_⟩
        intro st' hne
        apply hbefore
        cases st' <;> first | exact absurd rfl hne | simp [stepOrder, Step.index]
      · rw [List.mem_singleton.mp hc] at hr
        cases hr
  · intro _ h
    cases h

/-- C8. When `init` fails, at whichever step, `main` exits with code 1 without invoking
`run` or `cleanup`: up to the exit no event is polled, no frame is rendered, no delay is
made, no handle held in a field is released and no subsystem is shut down, so every
resource acquired before the failing step, the decoded image surface apart, is still
live at exit.  A release can only be the free of the decoded image surface, and only
when it is the texture upload that fails. -/
theorem init_failure_skips_run_and_cleanup (fuel : Nat) (env : Env)
    (frames : Nat → FrameInput) (hfail : (init env Sys.initial).1 = false) :
    ∃ s, main fuel env frames = .done (1, s) ∧
      (∀ c ∈ s.trace, c.inHandleEvents = false ∧ c.inRender = false ∧ c.isDelay = false ∧
        c.isPersistentRelease = false ∧ c.isShutdown = false) ∧
      (∀ c ∈ s.trace, ∀ r, c.releases = some r →
        c = .SDL_FreeSurface env.IMG_Load ∧ Step.ok env .textureUpload = false ∧
        ∀ st, st ≠ .textureUpload → Step.ok env st = true) ∧
      (∀ r ∈ s.trace.filterMap Call.acquires, r ≠ .surface env.IMG_Load → r ∈ live s.trace) := by
  obtain ⟨hinert, hrel⟩ := init_failure_trace env hfail
  have hinert' : ∀ c ∈ ((init env Sys.initial).2.call
      (.printf "Failed to initialize!\n" none)).trace,
      c.inHandleEvents = false ∧ c.inRender = false ∧ c.isDelay = false ∧
      c.isPersistentRelease = false ∧ c.isShutdown = false := by
    intro c hc
    rw [call_trace] at hc
    rcases List.mem_append.mp hc with hc | hc
    · exact hinert c hc
    · rw [List.mem_singleton.mp hc]
      exact ⟨rfl, rfl, rfl, rfl, rfl⟩
  have hrel' : ∀ c ∈ ((init env Sys.initial).2.call
      (.printf "Failed to initialize!\n" none)).trace, ∀ r, c.releases = some r →
      c = .SDL_FreeSurface env.IMG_Load ∧ Step.ok env .textureUpload = false ∧
      ∀ st, st ≠ .textureUpload → Step.ok env st = true := by
    intro c hc r hr
    rw [call_trace] at hc
    rcases List.mem_append.mp hc with hc | hc
    · exact hrel c hc r hr
    · rw [List.mem_singleton.mp hc] at hr
      cases hr
  refine ⟨_, main_of_init_false fuel env frames hfail, hinert', hrel', ?_⟩
  intro r hacq hne
  apply mem_live_of_not_released _ r hacq
  intro c hc hr
  have hfree := (hrel' c hc r hr).1
  rw [hfree] at hr
  simp only [Call.releases] at hr
  split_ifs at hr
  simp only [Option.some.injEq] at hr
  exact hne hr.symm

/-- Witness of C8: the image file is missing. -/
theorem init_failure_skips_run_and_cleanup_witness :
    (init imageMissingEnv Sys.initial).1 = false ∧
    ∃ s, main 3 imageMissingEnv demoFrames = .done (1, s) ∧
      (∀ c ∈ s.trace, c.inHandleEvents = false ∧ c.inRender = false ∧ c.isDelay = false ∧
        c.isPersistentRelease = false ∧ c.isShutdown = false) ∧
      (∀ c ∈ s.trace, ∀ r, c.releases = some r →
        c = .SDL_FreeSurface imageMissingEnv.IMG_Load ∧
        Step.ok imageMissingEnv .textureUpload = false ∧
        ∀ st, st ≠ .textureUpload → Step.ok imageMissingEnv st = true) ∧
      (∀ r ∈ s.trace.filterMap Call.acquires,
        r ≠ .surface imageMissingEnv.IMG_Load → r ∈ live s.trace) :=
  ⟨by decide, init_failure_skips_run_and_cleanup 3 imageMissingEnv demoFrames (by decide)⟩

/-! ## A missing image file -/

theorem init_of_image_decode_failure (env : Env)
    (hearlier : ∀ st ∈ stepOrder.take 9, Step.ok env st = true)
    (himg : env.IMG_Load = nullptr) :
    init env Sys.initial =
      (false, ⟨{ initApp env with image := nullptr }, .Stopped, (initCalls env).take 10 ++
        [.printf "Failed to load image: %s\n" (some .IMG_GetError)]⟩) := by
  have h1 : ¬ env.SDL_Init < 0 := by
    simpa [Step.ok] using hearlier .SDL_Init (by simp [stepOrder])
  have h2 : ¬ env.IMG_Init &&& IMG_INIT_PNG = 0 := by
    simpa [Step.ok] using hearlier .IMG_Init (by simp [stepOrder])
  have h3 : ¬ env.Mix_OpenAudio < 0 := by
    simpa [Step.ok] using hearlier .Mix_OpenAudio (by simp [stepOrder])
  have h4 : ¬ env.TTF_Init = -1 := by
    simpa [Step.ok] using hearlier .TTF_Init (by simp [stepOrder])
  have h5 : ¬ env.SDL_CreateWindow = nullptr := by
    simpa [Step.ok] using hearlier .window (by simp [stepOrder])
  have h6 : ¬ env.SDL_CreateRenderer = nullptr := by
    simpa [Step.ok] using hearlier .renderer (by simp [stepOrder])
  have h7 : ¬ env.TTF_OpenFont = nullptr := by
    simpa [Step.ok] using hearlier .font (by simp [stepOrder])
  have h8 : ¬ env.Mix_LoadMUS = nullptr := by
    simpa [Step.ok] using hearlier .music (by simp [stepOrder])
  have h9 : ¬ env.Mix_LoadWAV = nullptr := by
    simpa [Step.ok] using hearlier .sound (by simp [stepOrder])
  rw [init_eq, if_neg h1, if_neg h2, if_neg h3, if_neg h4, if_neg h5, if_neg h6, if_neg h7,
    if_neg h8, if_neg h9, if_pos himg]

/-- C7, as the code behaves: when `IMG_Load` fails while every earlier step succeeds,
the calls of the run are, in order, the four subsystem initialisations, the successful
`SDL_CreateWindow` call with `SDL_WINDOW_SHOWN`, the renderer creation, the font, music
and sample loads, the failed `IMG_Load`, the log of the image-load failure and the log
of the failed initialisation, after which `main` exits with code 1.  The shown window is
thus created before any asset load is attempted, it is the only one, it is not
destroyed, and no event is polled and no frame rendered. -/
theorem image_decode_failure_exits_before_loop (fuel : Nat) (env : Env)
    (frames : Nat → FrameInput)
    (hearlier : ∀ st ∈ stepOrder.take 9, Step.ok env st = true)
    (himg : env.IMG_Load = nullptr) :
    ∃ s, main fuel env frames = .done (1, s) ∧
      s.trace =
        [.SDL_Init (SDL_INIT_VIDEO ||| SDL_INIT_AUDIO) env.SDL_Init,
         .IMG_Init IMG_INIT_PNG env.IMG_Init,
         .Mix_OpenAudio 44100 MIX_DEFAULT_FORMAT 2 2048 env.Mix_OpenAudio,
         .TTF_Init env.TTF_Init,
         .SDL_CreateWindow "SDL Multimedia Example" SDL_WINDOWPOS_UNDEFINED
           SDL_WINDOWPOS_UNDEFINED SCREEN_WIDTH SCREEN_HEIGHT SDL_WINDOW_SHOWN
           env.SDL_CreateWindow,
         .SDL_CreateRenderer env.SDL_CreateWindow (-1) SDL_RENDERER_ACCELERATED
           env.SDL_CreateRenderer,
         .TTF_OpenFont "resources/Times New Roman.ttf" 28 env.TTF_OpenFont,
         .Mix_LoadMUS "resources/monkdev.mp3" env.Mix_LoadMUS,
         .Mix_LoadWAV "resources/btn.wav" env.Mix_LoadWAV,
         .IMG_Load "resources/rev.jpg" nullptr,
         .printf "Failed to load image: %s\n" (some .IMG_GetError),
         .printf "Failed to initialize!\n" none] ∧
      (s.trace.get? 4).map Call.showsWindow = some true ∧
      (∀ c ∈ s.trace.take 4, c.step ∉ [some Step.font, some Step.music, some Step.sound,
        some Step.imageDecode, some Step.textureUpload]) ∧
      (s.trace.drop 5).filterMap Call.step
        = [Step.renderer, Step.font, Step.music, Step.sound, Step.imageDecode] ∧
      Call.printf "Failed to load image: %s\n" (some .IMG_GetError) ∈ s.trace ∧
      s.trace.countP Call.showsWindow = 1 ∧
      (∀ c ∈ s.trace, c.inHandleEvents = false ∧ c.inRender = false ∧
        c.isPersistentRelease = false) := by
  have hinit := init_of_image_decode_failure env hearlier himg
  have hfail : (init env Sys.initial).1 = false := by rw [hinit]
  have hw : ¬ env.SDL_CreateWindow = nullptr := by
    simpa [Step.ok] using hearlier .window (by simp [stepOrder])
  have hshown : ¬ SDL_WINDOW_SHOWN = 0 := by decide
  have htrace : ((init env Sys.initial).2.call (.printf "Failed to initialize!\n" none)).trace =
      [.SDL_Init (SDL_INIT_VIDEO ||| SDL_INIT_AUDIO) env.SDL_Init,
       .IMG_Init IMG_INIT_PNG env.IMG_Init,
       .Mix_OpenAudio 44100 MIX_DEFAULT_FORMAT 2 2048 env.Mix_OpenAudio,
       .TTF_Init env.TTF_Init,
       .SDL_CreateWindow "SDL Multimedia Example" SDL_WINDOWPOS_UNDEFINED
         SDL_WINDOWPOS_UNDEFINED SCREEN_WIDTH SCREEN_HEIGHT SDL_WINDOW_SHOWN
         env.SDL_CreateWindow,
       .SDL_CreateRenderer env.SDL_CreateWindow (-1) SDL_RENDERER_ACCELERATED
         env.SDL_CreateRenderer,
       .TTF_OpenFont "resources/Times New Roman.ttf" 28 env.TTF_OpenFont,
       .Mix_LoadMUS "resources/monkdev.mp3" env.Mix_LoadMUS,
       .Mix_LoadWAV "resources/btn.wav" env.Mix_LoadWAV,
       .IMG_Load "resources/rev.jpg" nullptr,
       .printf "Failed to load image: %s\n" (some .IMG_GetError),
       .printf "Failed to initialize!\n" none] := by
    rw [hinit]
    simp [Sys.call, initCalls, himg]
  refine ⟨_, main_of_init_false fuel env frames hfail, htrace, ?_, ?_, ?_, ?_, ?_, ?_⟩
  · rw [htrace]
    simp [Call.showsWindow, hw, hshown]
  · rw [htrace]
    simp [Call.step]
  · rw [htrace]
    simp [Call.step]
  · rw [hinit]
    simp [Sys.call]
  · rw [hinit]
    simp [Sys.call, initCalls, Call.showsWindow, List.countP_cons, hw, hshown]
  · rw [hinit]
    simp [Sys.call, initCalls, Call.inHandleEvents, Call.inRender, Call.isPersistentRelease]

/-- Witness of the amended C7: every file is present except the image. -/
theorem image_decode_failure_exits_before_loop_witness :
    (∀ st ∈ stepOrder.take 9, Step.ok imageMissingEnv st = true) ∧
    imageMissingEnv.IMG_Load = nullptr ∧
    ∃ s, main 3 imageMissingEnv demoFrames = .done (1, s) ∧
      (s.trace.get? 4).map Call.showsWindow = some true ∧
      (s.trace.drop 5).filterMap Call.step
        = [Step.renderer, Step.font, Step.music, Step.sound, Step.imageDecode] ∧
      Call.printf "Failed to load image: %s\n" (some .IMG_GetError) ∈ s.trace ∧
      s.trace.countP Call.showsWindow = 1 ∧
      (∀ c ∈ s.trace, c.inHandleEvents = false ∧ c.inRender = false ∧
        c.isPersistentRelease = false) := by
  obtain ⟨s, hm, _, h4, _, hd, hp, hc, hi⟩ :=
    image_decode_failure_exits_before_loop 3 imageMissingEnv demoFrames (by decide) rfl
  exact ⟨by decide, rfl, s, hm, h4, hd, hp, hc, hi⟩

/-- Counterexample to C7 as stated: with only the image file missing, `main` exits with
code 1 after a successful `SDL_CreateWindow` call with `SDL_WINDOW_SHOWN`. -/
theorem image_missing_window_was_shown :
    (∀ st ∈ stepOrder.take 9, Step.ok imageMissingEnv st = true) ∧
    imageMissingEnv.IMG_Load = nullptr ∧
    ∃ s, main 3 imageMissingEnv demoFrames = .done (1, s) ∧
      ¬ (∀ c ∈ s.trace, c.showsWindow = false) :=
  ⟨by decide, rfl, _, rfl, by decide⟩

/-! ## Calls of the loop, and shutdown -/

theorem handles_eq (a b : SDLApp)
    (h : ∀ r, { a with running := r } = { b with running := r }) :
    a.window = b.window ∧ a.renderer = b.renderer ∧ a.font = b.font ∧ a.music = b.music ∧
      a.soundEffect = b.soundEffect ∧ a.image = b.image := by
  have h' := h true
  simp only [SDLApp.mk.injEq, and_true] at h'
  exact h'

theorem renderCalls_congr (f : FrameInput) (a b : SDLApp)
    (h : ∀ r, { a with running := r } = { b with running := r }) :
    renderCalls f a = renderCalls f b := by
  obtain ⟨_, h1, h3, _, _, h2⟩ := handles_eq a b h
  simp [renderCalls, h1, h2, h3]

theorem iteration_calls (f : FrameInput) (s s' : Sys) (h : iteration f s = some s') :
    ∃ ext, s'.trace = s.trace ++ ext ∧
      (∀ r, { s'.app with running := r } = { s.app with running := r }) ∧
      ∀ c ∈ ext, c.inHandleEvents = true ∨ c ∈ renderCalls f s.app ∨ c = .SDL_Delay 16 := by
  obtain ⟨sr, hr, rfl⟩ := iteration_eq_some f s s' h
  obtain ⟨ext, he, hp, _⟩ := handleEvents_trace f.events s
  have hn : f.textSurface ≠ nullptr := by
    intro hn; rw [render_of_null f _ hn] at hr; cases hr
  rw [render_of_surface f _ hn] at hr
  cases hr
  have happ := handleEvents_app f.events s
  refine ⟨ext ++ (renderCalls f s.app ++ [.SDL_Delay 16]), ?_, happ, ?_⟩
  · simp only [call_trace, he, List.append_assoc, renderCalls_congr f _ _ happ]
  · intro c hc
    rcases List.mem_append.mp hc with hc | hc
    · exact Or.inl (hp c hc)
    · rcases List.mem_append.mp hc with hc | hc
      · exact Or.inr (Or.inl hc)
      · exact Or.inr (Or.inr (List.mem_singleton.mp hc))

theorem run_calls (fuel : Nat) :
    ∀ (frames : Nat → FrameInput) (s s' : Sys), run fuel frames s = .done s' →
      ∃ ext, s'.trace = s.trace ++ ext ∧
        (∀ r, { s'.app with running := r } = { s.app with running := r }) ∧
        ∀ c ∈ ext, c.inHandleEvents = true ∨ (∃ i, c ∈ renderCalls (frames i) s.app) ∨
          c = .SDL_Delay 16 := by
  induction fuel with
  | zero =>
    intro frames s s' h
    by_cases hrun : s.app.running = true
    · simp [run, hrun] at h
    · simp only [run, hrun] at h
      cases h
      exact ⟨[], by simp, fun _ => rfl, by simp⟩
  | succ fuel ih =>
    intro frames s s' h
    by_cases hrun : s.app.running = true
    · simp only [run, hrun, if_true] at h
      cases hit : iteration (frames 0) s with
      | none => rw [hit] at h; cases h
      | some s1 =>
        rw [hit] at h
        simp only at h
        obtain ⟨ext1, h1, a1, c1⟩ := iteration_calls _ _ _ hit
        obtain ⟨ext2, h2, a2, c2⟩ := ih _ s1 s' h
        refine ⟨ext1 ++ ext2, ?_, fun r => (a2 r).trans (a1 r), ?_⟩
        · rw [h2, h1, List.append_assoc]
        · intro c hc
          rcases List.mem_append.mp hc with hc | hc
          · rcases c1 c hc with h' | h' | h'
            · exact Or.inl h'
            · exact Or.inr (Or.inl ⟨0, h'⟩)
            · exact Or.inr (Or.inr h')
          · rcases c2 c hc with h' | ⟨i, h'⟩ | h'
            · exact Or.inl h'
            · refine Or.inr (Or.inl ⟨i + 1, ?_⟩)
              rw [renderCalls_congr _ _ _ a1] at h'
              exact h'
            · exact Or.inr (Or.inr h')
    · simp only [run, hrun] at h
      cases h
      exact ⟨[], by simp, fun _ => rfl, by simp⟩

theorem cleanup_trace (s : Sys) :
    (cleanup s).trace = s.trace ++
      [.SDL_DestroyTexture s.app.image, .Mix_FreeChunk s.app.soundEffect,
       .Mix_FreeMusic s.app.music, .TTF_CloseFont s.app.font,
       .SDL_DestroyRenderer s.app.renderer, .SDL_DestroyWindow s.app.window,
       .TTF_Quit, .Mix_Quit, .IMG_Quit, .SDL_Quit] := by
  simp [cleanup, Sys.call]

theorem renderCalls_releases (f : FrameInput) (app : SDLApp) :
    ∀ c ∈ renderCalls f app, ∀ r, c.releases = some r →
      r = .surface f.textSurface ∨ r = .texture f.textTexture := by
  intro c hc r hr
  simp only [renderCalls, List.mem_cons, List.mem_singleton, List.not_mem_nil, or_false] at hc
  rcases hc with rfl | rfl | rfl | rfl | rfl | rfl | rfl | rfl | rfl <;>
    simp only [Call.releases] at hr <;> try cases hr
  · split_ifs at hr
    simp only [Option.some.injEq] at hr
    exact Or.inl hr.symm
  · split_ifs at hr
    simp only [Option.some.injEq] at hr
    exact Or.inr hr.symm

/-- C5. On a run where `init` succeeds and the loop exits (no frame's text texture
having the address of the image texture, which is live throughout), `init` acquires, in
this order, the four subsystems, the window, the renderer, the font, the music, the sound
sample, the decoded surface and the image texture, and all but the decoded surface are
held at the start of the loop; `cleanup` releases them in exactly the reverse order; over
the whole run each is released by exactly one call; and none is released by a call of
`init` or of the loop, so every release comes after the last drain and the last frame,
`cleanup` itself polling no event and rendering nothing. -/
theorem cleanup_reverses_acquisition (fuel : Nat) (env : Env) (frames : Nat → FrameInput)
    (s : Sys) (hmain : main fuel env frames = .done (0, s))
    (hfresh : ∀ i, (frames i).textTexture ≠ env.SDL_CreateTextureFromSurface) :
    ∃ (sRun : Sys) (loopCalls : List Call) (acquired : List Resource)
      (cleanupCalls : List Call),
      init env Sys.initial = (true, ⟨initApp env, .Stopped, initCalls env⟩) ∧
      run fuel frames ⟨initApp env, .Stopped, initCalls env⟩ = .done sRun ∧
      s = cleanup sRun ∧
      acquired = [.subsystem .SDL, .subsystem .IMG, .subsystem .Mixer, .subsystem .TTF,
        .window env.SDL_CreateWindow, .renderer env.SDL_CreateRenderer,
        .font env.TTF_OpenFont, .music env.Mix_LoadMUS, .chunk env.Mix_LoadWAV,
        .texture env.SDL_CreateTextureFromSurface] ∧
      cleanupCalls = [.SDL_DestroyTexture env.SDL_CreateTextureFromSurface,
        .Mix_FreeChunk env.Mix_LoadWAV, .Mix_FreeMusic env.Mix_LoadMUS,
        .TTF_CloseFont env.TTF_OpenFont, .SDL_DestroyRenderer env.SDL_CreateRenderer,
        .SDL_DestroyWindow env.SDL_CreateWindow, .TTF_Quit, .Mix_Quit, .IMG_Quit,
        .SDL_Quit] ∧
      (initCalls env).filterMap Call.acquires
        = acquired.take 9 ++ [.surface env.IMG_Load] ++ acquired.drop 9 ∧
      live (initCalls env) = acquired ∧
      s.trace = initCalls env ++ loopCalls ++ cleanupCalls ∧
      cleanupCalls.filterMap Call.releases = acquired.reverse ∧
      (∀ r ∈ acquired, releaseCount r s.trace = 1) ∧
      (∀ c ∈ initCalls env ++ loopCalls, ∀ r ∈ acquired, c.releases ≠ some r) ∧
      (∀ c ∈ cleanupCalls, c.inHandleEvents = false ∧ c.inRender = false) := by
  have hb : (init env Sys.initial).1 = true := by
    by_contra hb
    have hb' : (init env Sys.initial).1 = false := by simpa using hb
    rw [main_of_init_false fuel env frames hb'] at hmain
    simp at hmain
  have hok := (init_true_iff env).mp hb
  have hinit := init_of_all_ok env hok
  have h1 : ¬ env.SDL_Init < 0 := by simpa [Step.ok] using hok .SDL_Init
  have h2 : ¬ env.IMG_Init &&& IMG_INIT_PNG = 0 := by simpa [Step.ok] using hok .IMG_Init
  have h3 : ¬ env.Mix_OpenAudio < 0 := by simpa [Step.ok] using hok .Mix_OpenAudio
  have h4 : ¬ env.TTF_Init = -1 := by simpa [Step.ok] using hok .TTF_Init
  have h5 : ¬ env.SDL_CreateWindow = nullptr := by simpa [Step.ok] using hok .window
  have h6 : ¬ env.SDL_CreateRenderer = nullptr := by simpa [Step.ok] using hok .renderer
  have h7 : ¬ env.TTF_OpenFont = nullptr := by simpa [Step.ok] using hok .font
  have h8 : ¬ env.Mix_LoadMUS = nullptr := by simpa [Step.ok] using hok .music
  have h9 : ¬ env.Mix_LoadWAV = nullptr := by simpa [Step.ok] using hok .sound
  have h10 : ¬ env.IMG_Load = nullptr := by simpa [Step.ok] using hok .imageDecode
  have h11 : ¬ env.SDL_CreateTextureFromSurface = nullptr := by
    simpa [Step.ok] using hok .textureUpload
  rw [main_of_init_true fuel env frames hb, hinit] at hmain
  cases hr : run fuel frames ⟨initApp env, .Stopped, initCalls env⟩ with
  | crashed => simp only [hr] at hmain; cases hmain
  | outOfFuel => simp only [hr] at hmain; cases hmain
  | done sRun =>
    simp only [hr, Outcome.done.injEq, Prod.mk.injEq, true_and] at hmain
    obtain ⟨ext, htr, happ, hcalls⟩ := run_calls fuel frames _ sRun hr
    obtain ⟨aw, ar, af, am, as, ai⟩ := handles_eq _ _ happ
    simp only [initApp] at aw ar af am as ai
    have hstrace : s.trace = initCalls env ++ ext ++
        [.SDL_DestroyTexture env.SDL_CreateTextureFromSurface,
         .Mix_FreeChunk env.Mix_LoadWAV, .Mix_FreeMusic env.Mix_LoadMUS,
         .TTF_CloseFont env.TTF_OpenFont, .SDL_DestroyRenderer env.SDL_CreateRenderer,
         .SDL_DestroyWindow env.SDL_CreateWindow, .TTF_Quit, .Mix_Quit, .IMG_Quit,
         .SDL_Quit] := by
      rw [← hmain, cleanup_trace, htr, aw, ar, af, am, as, ai]
    have hinitrel : ∀ c ∈ initCalls env, ∀ r, c.releases = some r →
        r = .surface env.IMG_Load := by
      intro c hc r hrel
      have hfree := initCalls_releases env c hc r hrel
      rw [hfree] at hrel
      simp only [Call.releases, h10, if_false, Option.some.injEq] at hrel
      exact hrel.symm
    have hlooprel : ∀ c ∈ ext, ∀ r, c.releases = some r →
        (∃ p, r = .surface p) ∨ ∃ i, r = .texture (frames i).textTexture := by
      intro c hc r hrel
      rcases hcalls c hc with h' | ⟨i, h'⟩ | h'
      · rw [(inHandleEvents_isPresent c h').2.2.2] at hrel
        cases hrel
      · rcases renderCalls_releases _ _ c h' r hrel with h'' | h''
        · exact Or.inl ⟨_, h''⟩
        · exact Or.inr ⟨i, h''⟩
      · rw [h'] at hrel
        cases hrel
    have hbefore : ∀ c ∈ initCalls env ++ ext,
        ∀ r ∈ [Resource.subsystem .SDL, .subsystem .IMG, .subsystem .Mixer, .subsystem .TTF,
          .window env.SDL_CreateWindow, .renderer env.SDL_CreateRenderer,
          .font env.TTF_OpenFont, .music env.Mix_LoadMUS, .chunk env.Mix_LoadWAV,
          .texture env.SDL_CreateTextureFromSurface], c.releases ≠ some r := by
      intro c hc r hr hrel
      rcases List.mem_append.mp hc with hc | hc
      · have := hinitrel c hc r hrel
        subst this
        simp at hr
      · rcases hlooprel c hc r hrel with ⟨p, rfl⟩ | ⟨i, rfl⟩
        · simp at hr
        · simp only [List.mem_cons, List.mem_singleton, List.not_mem_nil, or_false,
            reduceCtorEq, false_or, Resource.texture.injEq] at hr
          exact hfresh i hr
    refine ⟨sRun, ext, _, _, hinit, rfl, hmain.symm, rfl, rfl, ?_, ?_, hstrace, ?_, ?_,
      hbefore, ?_⟩
    · simp [initCalls, Call.acquires, h1, h2, h3, h4, h5, h6, h7, h8, h9, h10, h11]
    · simp [live, liveStep, initCalls, Call.acquires, Call.releases, h1, h2, h3, h4, h5, h6,
        h7, h8, h9, h10, h11]
    · simp [Call.releases, h5, h6, h7, h8, h9, h11]
    · intro r hr
      have hzero : (initCalls env ++ ext).countP (fun c => decide (c.releases = some r)) = 0 :=
        List.countP_eq_zero.mpr (fun c hc => by simpa using hbefore c hc r hr)
      rw [hstrace, releaseCount, List.countP_append, hzero]
      simp only [List.mem_cons, List.mem_singleton, List.not_mem_nil, or_false] at hr
      rcases hr with rfl | rfl | rfl | rfl | rfl | rfl | rfl | rfl | rfl | rfl <;>
        simp [List.countP_cons, Call.releases, h5, h6, h7, h8, h9, h11]
    · simp [Call.inHandleEvents, Call.inRender]

/-- Witness of C5: all files present, a quit request in the third batch. -/
theorem cleanup_reverses_acquisition_witness :
    main 5 demoEnv demoFrames = .done (0, demoFinal) ∧
    (∀ i, (demoFrames i).textTexture ≠ demoEnv.SDL_CreateTextureFromSurface) ∧
    ∃ sRun, run 5 demoFrames ⟨initApp demoEnv, .Stopped, initCalls demoEnv⟩ = .done sRun ∧
      demoFinal = cleanup sRun ∧
      live (initCalls demoEnv) = [.subsystem .SDL, .subsystem .IMG, .subsystem .Mixer,
        .subsystem .TTF, .window 1, .renderer 2, .font 3, .music 4, .chunk 5, .texture 7] := by
  have hfresh : ∀ i, (demoFrames i).textTexture ≠ demoEnv.SDL_CreateTextureFromSurface := by
    intro i
    rcases i with _ | _ | i
    · decide
    · decide
    · exact (by decide : (9 : Nat) ≠ 7)
  obtain ⟨sRun, _, _, _, _, h2, h3, h4, _, _, h6, _⟩ :=
    cleanup_reverses_acquisition 5 demoEnv demoFrames demoFinal rfl hfresh
  exact ⟨rfl, hfresh, sRun, h2, h3, by rw [h6, h4]; rfl⟩

end SdlTesting
